import Mathlib

/-!
Verification development for the sql2metrics collector service.

This file gives a shallow embedding, in Lean 4, of the parts of the Go
source that the verified properties talk about:

* the configuration data model and `Config.Validate`
  (`internal/config/config.go`);
* the label-key helper `labelMapToString`
  (`internal/collectors/helpers.go`);
* the Redis command parser and scalar query entry point
  (`internal/datasource/redis.go`);
* the REST API JSON path extraction and scalar coercion
  (`internal/datasource/restapi.go`);
* the collection service: `NewService`, `execute`, `queryMetric` and
  `ReloadConfig` (the `collectors` package variant that carries MySQL,
  Redis, IoTDB and RestAPI backends).

Modelling conventions:

* Go `float64` metric values are modelled by `GVal` (either NaN or a
  rational number); backend query results that succeed are rationals.
* Go maps are modelled as association lists consulted only through
  `List.lookup`; `reflect.DeepEqual` on `map[string]string` is modelled
  by extensional lookup equality (`stringMapEqual`).
* Side effects of opening clients and running backend queries are
  supplied by an `Env` of oracles; the embedded functions are otherwise
  direct translations of the Go control flow.
* A Go runtime panic (calling a method on a nil interface value) is
  modelled by returning `none` from the embedding of the function whose
  execution dies.
* The process-local Prometheus registry is modelled as a list of
  descriptors; `Registry.Register` accepts a descriptor unless one with
  the same name but different help or different label-key set is present,
  or an identical descriptor is already registered (the documented
  contract of the client library registry).  The runtime and process
  collectors registered by `NewService` expose no descriptor that any
  embedded operation inspects, so they are not carried in the model.
-/

namespace Sql2Metrics

/-- A Prometheus gauge value: either NaN or a real (rational) number. -/
inductive GVal where
  | nan : GVal
  | num : ℚ → GVal
deriving DecidableEq, Repr

/-! ## Configuration data model (`internal/config/config.go`) -/

structure ScheduleConfig where
  interval : String
deriving DecidableEq, Repr

structure PrometheusConfig where
  listenAddress : String
  listenPort : Int
deriving DecidableEq, Repr

structure MySQLConfig where
  host : String
  port : Int
  user : String
  password : String
  database : String
  params : List (String × String)
deriving DecidableEq, Repr

structure RedisConfig where
  mode : String
  addr : String
  username : String
  password : String
  db : Int
  enableTLS : Bool
  skipTLSVerify : Bool
deriving DecidableEq, Repr

structure IoTDBConfig where
  host : String
  port : Int
  user : String
  password : String
  fetchSize : Int
  zoneID : String
  enableTLS : Bool
  enableZstd : Bool
  sessionPool : Int
deriving DecidableEq, Repr

structure RestAPITLSConfig where
  skipVerify : Bool
deriving DecidableEq, Repr

structure RestAPIRetryConfig where
  maxAttempts : Int
  backoff : String
deriving DecidableEq, Repr

structure RestAPIConfig where
  baseURL : String
  timeout : String
  headers : List (String × String)
  tls : RestAPITLSConfig
  retry : RestAPIRetryConfig
deriving DecidableEq, Repr

structure MetricSpec where
  name : String
  help : String
  type : String
  source : String
  query : String
  labels : List (String × String)
  resultField : String
  connection : String
  buckets : List ℚ
  objectives : List (ℚ × ℚ)
deriving DecidableEq, Repr

structure Config where
  schedule : ScheduleConfig
  prometheus : PrometheusConfig
  mysql : MySQLConfig
  mysqlConnections : List (String × MySQLConfig)
  redis : RedisConfig
  redisConnections : List (String × RedisConfig)
  restapiConnections : List (String × RestAPIConfig)
  iotdb : IoTDBConfig
  metrics : List MetricSpec
deriving DecidableEq, Repr

/-- `Config.MySQLConfigFor`: name defaults to "default", lookup in the map. -/
def Config.mysqlConfigFor (c : Config) (name : String) : Option MySQLConfig :=
  let name := if name = "" then "default" else name
  c.mysqlConnections.lookup name

/-- `Config.RedisConfigFor`: name defaults to "default", lookup in the map. -/
def Config.redisConfigFor (c : Config) (name : String) : Option RedisConfig :=
  let name := if name = "" then "default" else name
  c.redisConnections.lookup name

/-- `Config.RestAPIConfigFor`: name defaults to "default", lookup in the map. -/
def Config.restapiConfigFor (c : Config) (name : String) : Option RestAPIConfig :=
  let name := if name = "" then "default" else name
  c.restapiConnections.lookup name

/-- `isValidLabelName` in config.go: the regular expression
`^[a-zA-Z_][a-zA-Z0-9_]*$` applied to a label name. -/
def isValidLabelName (s : String) : Bool :=
  match s.data with
  | [] => false
  | c :: cs => (c.isAlpha || c = '_') && cs.all (fun d => d.isAlphanum || d = '_')

/-- The per-metric body of the validation loop of `Config.Validate`, in
source order: non-empty name, legal source, non-empty query unless
restapi, legal type, histogram buckets, summary objectives, label-name
syntax, and referenced connection present for mysql / redis / restapi
sources.  `some errorMessage` is the `return err` of the loop body. -/
def metricSpecError (c : Config) (m : MetricSpec) : Option String :=
  if m.name = "" then some "metric name must not be empty" else
  if m.source ≠ "mysql" && m.source ≠ "iotdb" && m.source ≠ "redis" &&
      m.source ≠ "restapi" then
    some ("metric " ++ m.name ++ " has illegal source " ++ m.source) else
  if m.query = "" && m.source ≠ "restapi" then
    some ("metric " ++ m.name ++ " missing query") else
  let metricType := if m.type = "" then "gauge" else m.type
  if metricType ≠ "gauge" && metricType ≠ "counter" &&
      metricType ≠ "histogram" && metricType ≠ "summary" then
    some ("metric " ++ m.name ++ " has illegal type " ++ metricType) else
  if metricType = "histogram" && m.buckets.isEmpty then
    some ("metric " ++ m.name ++ " is a histogram without buckets") else
  if metricType = "summary" && m.objectives.isEmpty then
    some ("metric " ++ m.name ++ " is a summary without objectives") else
  match m.labels.find? (fun kv => !isValidLabelName kv.1) with
  | some kv => some ("metric " ++ m.name ++ " has invalid label name " ++ kv.1)
  | none =>
    if m.source = "mysql" then
      let conn := if m.connection = "" then "default" else m.connection
      if (c.mysqlConnections.lookup conn).isNone then
        some ("metric " ++ m.name ++ " references unconfigured MySQL connection " ++ conn)
      else none
    else if m.source = "redis" then
      let conn := if m.connection = "" then "default" else m.connection
      if (c.redisConnections.lookup conn).isNone then
        some ("metric " ++ m.name ++ " references unconfigured Redis connection " ++ conn)
      else none
    else if m.source = "restapi" then
      let conn := if m.connection = "" then "default" else m.connection
      if (c.restapiConnections.lookup conn).isNone then
        some ("metric " ++ m.name ++ " references unconfigured RestAPI connection " ++ conn)
      else none
    else none

/-- `Config.Validate` from config.go, returning `some errorMessage` on the
first failing check and `none` when the configuration is accepted: the
metric list must be non-empty, every Redis connection entry needs an addr
and a standalone mode, and each metric is checked by `metricSpecError` in
list order. -/
def Config.validate (c : Config) : Option String :=
  if c.metrics.isEmpty then some "at least one metric must be defined" else
  match c.redisConnections.find? (fun nc => nc.2.addr = "") with
  | some nc => some ("Redis connection " ++ nc.1 ++ " missing addr")
  | none =>
  match c.redisConnections.find? (fun nc =>
      (if nc.2.mode = "" then "standalone" else nc.2.mode) ≠ "standalone") with
  | some nc => some ("Redis connection " ++ nc.1 ++ " unsupported mode")
  | none =>
  (c.metrics.map (metricSpecError c)).foldr (fun e acc => e.orElse (fun _ => acc)) none

/-- The metric-name pattern written in the specification:
`[a-zA-Z_:][a-zA-Z0-9_:]*`.  This definition follows the SPEC's words and
exists only to be compared with `Config.validate`, which (as the source
shows) checks metric names for emptiness but not against this pattern. -/
def specMetricNamePattern (s : String) : Bool :=
  match s.data with
  | [] => false
  | c :: cs => (c.isAlpha || c = '_' || c = ':') &&
      cs.all (fun d => d.isAlphanum || d = '_' || d = ':')

/-! ## Label key helper (`internal/collectors/helpers.go`) -/

/-- Insert a string into a ≤-sorted list of strings (model of the effect of
`sort.Strings` on the collected key list). -/
def insertSorted (x : String) : List String → List String
  | [] => [x]
  | y :: ys => if x ≤ y then x :: y :: ys else y :: insertSorted x ys

/-- Sort a list of strings ascending, as `sort.Strings` does. -/
def sortStrings (l : List String) : List String :=
  l.foldr insertSorted []

/-- `labelMapToString`: empty map gives "", otherwise the keys are sorted
and each contributes `key=value;` to the result. -/
def labelMapToString (labels : List (String × String)) : String :=
  if labels.isEmpty then ""
  else
    let keys := sortStrings (labels.map Prod.fst)
    String.join (keys.map (fun k => k ++ "=" ++ ((labels.lookup k).getD "") ++ ";"))

/-- The duplicate-detection key computed in `NewService` and
`ReloadConfig`: `spec.Name + labelMapToString(spec.Labels)`. -/
def labelKey (spec : MetricSpec) : String :=
  spec.name ++ labelMapToString spec.labels

/-- The fingerprint of the specification: the metric name together with its
label pairs sorted by key.  This is the uniqueness key the spec assigns to
an instrument. -/
def fingerprint (spec : MetricSpec) : String × List (String × String) :=
  (spec.name,
   (sortStrings (spec.labels.map Prod.fst)).map
     (fun k => (k, (spec.labels.lookup k).getD "")))

/-! ## Redis datasource (`internal/datasource/redis.go`) -/

/-- The character loop of `strings.Fields`, with the current token kept in
reverse. -/
def goFieldsAux : List Char → List Char → List String
  | [], cur => if cur.isEmpty then [] else [String.mk cur.reverse]
  | c :: rest, cur =>
    if c.isWhitespace then
      (if cur.isEmpty then [] else [String.mk cur.reverse]) ++ goFieldsAux rest []
    else goFieldsAux rest (c :: cur)

/-- `strings.Fields`: split on whitespace, dropping empty pieces. -/
def goFields (s : String) : List String :=
  goFieldsAux s.data []

/-- `strings.ToUpper` (on the ASCII range relevant to command tokens). -/
def goToUpper (s : String) : String :=
  String.mk (s.data.map Char.toUpper)

/-- `allowedRedisCommands` from redis.go: the closed allow-list of read-only
commands. -/
def allowedRedisCommands : List String :=
  ["GET", "HGET", "LLEN", "SCARD", "ZCARD", "PFCOUNT",
   "STRLEN", "HLEN", "ZCOUNT", "EXISTS", "ZSCORE", "DBSIZE"]

/-- `parseRedisCommand`: tokenize the raw query; an empty token list is an
error; the first token is uppercased and must appear in the allow-list. -/
def parseRedisCommand (raw : String) : Except String (String × List String) :=
  match goFields raw with
  | [] => .error "Redis command must not be empty"
  | t :: rest =>
    let cmd := goToUpper t
    if allowedRedisCommands.contains cmd then .ok (cmd, rest)
    else .error ("Redis command " ++ cmd ++ " is not allowed, use read-only commands")

/-- A value returned by the Redis driver's generic `Do`, as switched on by
`redisValueToFloat` in redis.go. -/
inductive RedisVal where
  | rnil : RedisVal
  | rint : Int → RedisVal
  | rfloat : ℚ → RedisVal
  | rstr : String → RedisVal
  | rbytes : String → RedisVal
  | rother : RedisVal
deriving DecidableEq, Repr

/-- `redisValueToFloat`: nil is an error; int64 and float64 convert directly;
strings and byte slices are parsed as floats (`parseFloat` models the
library float parser `strconv.ParseFloat`); any other type is an error. -/
def redisValueToFloat (parseFloat : String → Option ℚ) : RedisVal → Except String ℚ
  | .rnil => .error "Redis command returned a nil value"
  | .rint i => .ok (i : ℚ)
  | .rfloat q => .ok q
  | .rstr s =>
    match parseFloat s with
    | some q => .ok q
    | none => .error "Redis value cannot be converted to a number"
  | .rbytes s =>
    match parseFloat s with
    | some q => .ok q
    | none => .error "Redis value cannot be converted to a number"
  | .rother => .error "Redis returned an unsupported type"

/-- `RedisClient.QueryScalar`: parse the raw command, rejecting it before
anything is dispatched; only on a successful parse is the command sent to
the backend (`doCmd` models the driver's `Do`, returning `.error` for both
the nil reply and transport errors handled in the source). -/
def redisQueryScalar (parseFloat : String → Option ℚ)
    (doCmd : String → List String → Except String RedisVal)
    (raw : String) : Except String ℚ :=
  match parseRedisCommand raw with
  | .error e => .error e
  | .ok (cmd, args) =>
    match doCmd cmd args with
    | .error e => .error e
    | .ok v => redisValueToFloat parseFloat v

/-! ## REST API datasource (`internal/datasource/restapi.go`) -/

/-- A decoded JSON value, as produced by `encoding/json` unmarshalling into
`interface\x7b\x7d`: null, number (float64), string, bool, array, object. -/
inductive JVal where
  | null : JVal
  | num : ℚ → JVal
  | str : String → JVal
  | boolean : Bool → JVal
  | arr : List JVal → JVal
  | obj : List (String × JVal) → JVal
deriving Repr

/-- Parse a decimal string of digits. -/
def digitsToNat : List Char → Option ℕ
  | [] => none
  | ds => if ds.all Char.isDigit
      then some (ds.foldl (fun acc c => acc * 10 + (c.toNat - '0'.toNat)) 0)
      else none

/-- `strconv.Atoi`: optional sign followed by at least one digit. -/
def parseGoInt (s : String) : Option Int :=
  match s.data with
  | [] => none
  | '+' :: ds => (digitsToNat ds).map (fun n => (n : Int))
  | '-' :: ds => (digitsToNat ds).map (fun n => -(n : Int))
  | ds => (digitsToNat ds).map (fun n => (n : Int))

/-- `parseArrayIndex`: a part of the form `[n]` (opening bracket first,
closing bracket last) yields the parsed interior index. -/
def parseArrayIndex (part : String) : Option Int :=
  match part.data with
  | '[' :: rest =>
    match rest.getLast? with
    | some ']' => parseGoInt (String.mk rest.dropLast)
    | _ => none
  | _ => none

/-- The character loop of `splitPath`, with the accumulated current segment
kept in reverse.  A dot or an opening bracket flushes the segment; a
bracketed run up to the matching closing bracket is kept as one part; an
unmatched opening bracket is skipped, as in the source. -/
def splitPathAux : List Char → List Char → List String
  | [], cur => if cur.isEmpty then [] else [String.mk cur.reverse]
  | '.' :: rest, cur =>
    (if cur.isEmpty then [] else [String.mk cur.reverse]) ++ splitPathAux rest []
  | '[' :: rest, cur =>
    let flushed := if cur.isEmpty then [] else [String.mk cur.reverse]
    match rest.findIdx? (fun c => c = ']') with
    | some k =>
      flushed ++ [String.mk ('[' :: rest.take (k + 1))] ++ splitPathAux (rest.drop (k + 1)) []
    | none => flushed ++ splitPathAux rest []
  | c :: rest, cur => splitPathAux rest (c :: cur)
termination_by l _ => l.length
decreasing_by
  · simp
  · simp [List.length_drop]; omega
  · simp
  · simp

/-- `splitPath`: split a dotted path with bracketed indices into parts. -/
def splitPath (path : String) : List String :=
  splitPathAux path.data []

/-- `toFloat` from restapi.go: nil fails; numbers convert; strings are
parsed as floats; every other decoded JSON shape (booleans, arrays,
objects) falls to the default branch and fails. -/
def toFloat (parseFloat : String → Option ℚ) : JVal → Except String ℚ
  | .null => .error "value is nil"
  | .num q => .ok q
  | .str s =>
    match parseFloat s with
    | some q => .ok q
    | none => .error ("string " ++ s ++ " cannot be converted to a number")
  | .boolean _ => .error "unsupported type bool for conversion to a number"
  | .arr _ => .error "unsupported type array for conversion to a number"
  | .obj _ => .error "unsupported type object for conversion to a number"

/-- The path-walking loop of `extractJSONValue`: a nil current value fails;
a bracketed part indexes an array with bounds checking; any other part
looks up an object field. -/
def walkPath : List String → JVal → Except String JVal
  | [], cur => .ok cur
  | part :: rest, cur =>
    match cur with
    | .null => .error "encountered a nil value along the path"
    | _ =>
      match parseArrayIndex part with
      | some idx =>
        match cur with
        | .arr xs =>
          if 0 ≤ idx ∧ idx.toNat < xs.length then
            walkPath rest (xs.getD idx.toNat JVal.null)
          else .error "array index out of range"
        | _ => .error "expected an array along the path"
      | none =>
        match cur with
        | .obj fields =>
          match fields.lookup part with
          | some v => walkPath rest v
          | none => .error ("field " ++ part ++ " does not exist")
        | _ => .error "expected an object along the path"

/-- `extractJSONValue`: an empty path coerces the whole document; the
reserved path `length` returns an array's cardinality; otherwise walk the
split path and coerce the final value. -/
def extractJSONValue (parseFloat : String → Option ℚ)
    (data : JVal) (path : String) : Except String ℚ :=
  if path = "" then toFloat parseFloat data
  else if path = "length" then
    match data with
    | .arr xs => .ok (xs.length : ℚ)
    | _ => .error "length can only be used on arrays"
  else
    match walkPath (splitPath path) data with
    | .error e => .error e
    | .ok v => toFloat parseFloat v

/-! ## The collection service (`collectors` package) -/

/-- A descriptor held by the process-local Prometheus registry: the
fully-qualified metric name, the help text, and the constant label pairs
sorted by key. -/
structure Desc where
  name : String
  help : String
  labelPairs : List (String × String)
deriving DecidableEq, Repr

/-- The label keys of a descriptor (its dimension set). -/
def descKeys (d : Desc) : List String :=
  d.labelPairs.map Prod.fst

/-- `Registry.Register` of the client library: registration fails when a
registered descriptor shares the new descriptor's name but disagrees on
help or on the label-key dimensions, or when an identical descriptor is
already present; otherwise the descriptor is added. -/
def registerDesc (reg : List Desc) (d : Desc) : Except String (List Desc) :=
  if reg.any (fun e => e.name = d.name ∧ (e.help ≠ d.help ∨ descKeys e ≠ descKeys d)) then
    .error ("register metric " ++ d.name ++ " failed: inconsistent descriptor")
  else if reg.contains d then
    .error ("register metric " ++ d.name ++ " failed: duplicate descriptor")
  else .ok (reg ++ [d])

/-- `Registry.Unregister`: drop the collector's descriptor. -/
def unregisterDesc (reg : List Desc) (d : Desc) : List Desc :=
  reg.filter (fun e => e ≠ d)

/-- `metricHolder` (second variant): the spec (with stabilized help), the
collector's descriptor (for unregistering), and — when the instrument is a
prometheus Gauge, i.e. for gauge-typed specs only — the gauge carrying the
current value.  Non-gauge instruments leave `gauge` empty, modelling the
nil `prometheus.Gauge` interface value in the holder. -/
structure MetricHolder where
  spec : MetricSpec
  desc : Desc
  gauge : Option GVal
deriving DecidableEq, Repr

/-- Build the descriptor of a spec. -/
def mkDesc (spec : MetricSpec) : Desc :=
  { name := spec.name, help := spec.help, labelPairs := (fingerprint spec).2 }

/-- The `switch metricType` constructing the instrument (the type defaults
to gauge when empty): a gauge starts at value 0 and is usable for writes;
counter, histogram and summary register a collector but expose no gauge;
any other type has no constructor case. -/
def mkCollector (spec : MetricSpec) : Option (Desc × Option GVal) :=
  if spec.type = "" ∨ spec.type = "gauge" then some (mkDesc spec, some (GVal.num 0))
  else if spec.type = "counter" ∨ spec.type = "histogram" ∨ spec.type = "summary" then
    some (mkDesc spec, none)
  else none

/-- Accumulator of the metric-registration loop shared by `NewService` and
`ReloadConfig`: the first-seen help per name, the set of seen label keys,
the holders built so far, the registry, and the names registered by this
pass. -/
structure BuildSt where
  helpMap : List (String × String)
  registered : List String
  holders : List MetricHolder
  registry : List Desc
  newNames : List String
deriving DecidableEq, Repr

/-- Outcome of the registration loop: completion, a registry-registration
error (carrying the state at the failure point, whose registry keeps every
instrument registered earlier in the pass), or a spec whose metric type
matches no constructor case. -/
inductive BuildOutcome where
  | ok : BuildSt → BuildOutcome
  | regErr : String → BuildSt → BuildOutcome
  | badType : BuildSt → BuildOutcome
deriving DecidableEq, Repr

/-- `registeredMetrics[labelKey] = true`: record the spec's label key. -/
def markKey (st : BuildSt) (spec : MetricSpec) : BuildSt :=
  { st with registered := st.registered ++ [labelKey spec] }

/-- The help-normalization block: when the name was seen before, the spec's
help is overwritten with the first-seen help. -/
def stabilizeHelpSpec (st : BuildSt) (spec : MetricSpec) : MetricSpec :=
  match st.helpMap.lookup spec.name with
  | some h => { spec with help := h }
  | none => spec

/-- The help-normalization block, state side: a first-seen name records its
help. -/
def stabilizeHelpSt (st : BuildSt) (spec : MetricSpec) : BuildSt :=
  match st.helpMap.lookup spec.name with
  | some _ => st
  | none => { st with helpMap := st.helpMap ++ [(spec.name, spec.help)] }

/-- Outcome of one iteration of the registration loop. -/
inductive StepOutcome where
  | proceed : BuildSt → StepOutcome
  | regErrStep : String → BuildSt → StepOutcome
  | badTypeStep : BuildSt → StepOutcome
deriving DecidableEq, Repr

/-- One iteration of the registration loop shared by `NewService` and
`ReloadConfig`: skip a spec whose label key was already seen; record the
key; stabilize the help; construct the instrument; register it, reporting
a registration error; append the holder and the registered name. -/
def buildStep (st : BuildSt) (spec : MetricSpec) : StepOutcome :=
  if st.registered.contains (labelKey spec) then .proceed st
  else
    match mkCollector (stabilizeHelpSpec (markKey st spec) spec) with
    | none => .badTypeStep (stabilizeHelpSt (markKey st spec) spec)
    | some (d, g) =>
      match registerDesc (stabilizeHelpSt (markKey st spec) spec).registry d with
      | .error msg => .regErrStep msg (stabilizeHelpSt (markKey st spec) spec)
      | .ok reg =>
        .proceed { stabilizeHelpSt (markKey st spec) spec with
                     registry := reg,
                     holders := (stabilizeHelpSt (markKey st spec) spec).holders ++
                       [⟨stabilizeHelpSpec (markKey st spec) spec, d, g⟩],
                     newNames := (stabilizeHelpSt (markKey st spec) spec).newNames ++
                       [(stabilizeHelpSpec (markKey st spec) spec).name] }

/-- The registration loop over the spec list, translated from the loop
bodies of `NewService` and `ReloadConfig` (which are identical up to
logging and the handling of an unknown type), aborting the pass on a
registration error. -/
def buildMetrics (st : BuildSt) : List MetricSpec → BuildOutcome
  | [] => .ok st
  | spec :: rest =>
    match buildStep st spec with
    | .proceed st2 => buildMetrics st2 rest
    | .regErrStep msg st2 => .regErr msg st2
    | .badTypeStep st2 => .badType st2

/-- The oracles supplying every side effect of the service: whether opening
each kind of client succeeds, what each opened client's scalar query
returns (`none` is a query error), and the current wall-clock time. -/
structure Env where
  mysqlOpenOK : MySQLConfig → Bool
  redisOpenOK : RedisConfig → Bool
  iotdbOpenOK : IoTDBConfig → Bool
  restapiOpenOK : RestAPIConfig → Bool
  mysqlQuery : MySQLConfig → String → Option ℚ
  redisQuery : RedisConfig → String → Option ℚ
  iotdbQuery : IoTDBConfig → String → String → Option ℚ
  restapiQuery : RestAPIConfig → String → String → Option ℚ
  now : ℚ

/-- The state of `collectors.Service`: the live configuration, one opened
client map per backend kind (an opened client is represented by the
configuration it was opened from), the singleton IoTDB client, the holder
list, the process-local registry, and the two self-monitoring
instruments. -/
structure ServiceState where
  cfg : Config
  mysql : List (String × MySQLConfig)
  redis : List (String × RedisConfig)
  restapi : List (String × RestAPIConfig)
  iotdb : Option IoTDBConfig
  metrics : List MetricHolder
  registry : List Desc
  errorCount : ℕ
  lastRun : Option ℚ
deriving DecidableEq, Repr

/-- `needsSource`: some metric uses the given source. -/
def needsSource (metrics : List MetricSpec) (source : String) : Bool :=
  metrics.any (fun m => m.source = source)

/-- First-appearance deduplication of a name list (a determinization of the
iteration over the Go set). -/
def dedupStrings (l : List String) : List String :=
  l.foldl (fun acc x => if acc.contains x then acc else acc ++ [x]) []

/-- `mysqlConnectionsNeeded` / `redisConnectionsNeeded` /
`restapiConnectionsNeeded`: the connection names (defaulted to "default")
of the metrics using the given source. -/
def connectionsNeeded (source : String) (cfg : Config) : List String :=
  dedupStrings ((cfg.metrics.filter (fun m => m.source = source)).map
    (fun m => if m.connection = "" then "default" else m.connection))

/-- `reflect.DeepEqual` on string maps: extensional lookup equality. -/
def stringMapEqual (a b : List (String × String)) : Bool :=
  a.all (fun kv => b.lookup kv.1 = some kv.2) &&
  b.all (fun kv => a.lookup kv.1 = some kv.2)

/-- `mysqlConfigEqual` from the source: field-by-field equality including
the nested parameter map. -/
def mysqlConfigEqual (a b : MySQLConfig) : Bool :=
  a.host = b.host && a.port = b.port && a.user = b.user &&
  a.password = b.password && a.database = b.database &&
  stringMapEqual a.params b.params

/-- `redisConfigEqual` from the source. -/
def redisConfigEqual (a b : RedisConfig) : Bool :=
  a.mode = b.mode && a.addr = b.addr && a.username = b.username &&
  a.password = b.password && a.db = b.db && a.enableTLS = b.enableTLS &&
  a.skipTLSVerify = b.skipTLSVerify

/-- `restapiConfigEqual` from the source. -/
def restapiConfigEqual (a b : RestAPIConfig) : Bool :=
  a.baseURL = b.baseURL && a.timeout = b.timeout &&
  a.tls.skipVerify = b.tls.skipVerify &&
  a.retry.maxAttempts = b.retry.maxAttempts &&
  a.retry.backoff = b.retry.backoff &&
  stringMapEqual a.headers b.headers

/-- Help text of `collector_errors_total`. -/
def errorCountDesc : Desc :=
  { name := "collector_errors_total",
    help := "采集周期内出现错误的次数", labelPairs := [] }

/-- Help text of `collector_last_success_timestamp_seconds`. -/
def lastRunDesc : Desc :=
  { name := "collector_last_success_timestamp_seconds",
    help := "最近一次成功采集的 Unix 时间戳", labelPairs := [] }

/-- `NewService` (second variant): open the needed clients, warnings only
on open failures; run the registration loop from an empty registry (the
runtime and process collectors registered first are not carried, see the
header); register the two self-monitoring instruments.  `none` covers both
the error returns of the source and the `MustRegister` panic. -/
def newService (env : Env) (cfg : Config) : Option ServiceState :=
  let iotdb :=
    if needsSource cfg.metrics "iotdb" then
      if env.iotdbOpenOK cfg.iotdb then some cfg.iotdb else none
    else none
  let mysql := (connectionsNeeded "mysql" cfg).foldl (fun acc n =>
    match cfg.mysqlConfigFor n with
    | none => acc
    | some c => if env.mysqlOpenOK c then acc ++ [(n, c)] else acc) []
  let redis := (connectionsNeeded "redis" cfg).foldl (fun acc n =>
    match cfg.redisConfigFor n with
    | none => acc
    | some c => if env.redisOpenOK c then acc ++ [(n, c)] else acc) []
  let restapi := (connectionsNeeded "restapi" cfg).foldl (fun acc n =>
    match cfg.restapiConfigFor n with
    | none => acc
    | some c => if env.restapiOpenOK c then acc ++ [(n, c)] else acc) []
  match buildMetrics ⟨[], [], [], [], []⟩ cfg.metrics with
  | .badType _ => none
  | .regErr _ _ => none
  | .ok st =>
    match registerDesc st.registry errorCountDesc with
    | .error _ => none
    | .ok r1 =>
      match registerDesc r1 lastRunDesc with
      | .error _ => none
      | .ok r2 =>
        some { cfg := cfg, mysql := mysql, redis := redis, restapi := restapi,
               iotdb := iotdb, metrics := st.holders, registry := r2,
               errorCount := 0, lastRun := none }

/-- `Service.queryMetric`: dispatch on the source, defaulting the
connection name; a missing client slot is an error (`none`). -/
def queryMetric (env : Env) (s : ServiceState) (spec : MetricSpec) : Option ℚ :=
  if spec.source = "mysql" then
    let conn := if spec.connection = "" then "default" else spec.connection
    match s.mysql.lookup conn with
    | none => none
    | some c => env.mysqlQuery c spec.query
  else if spec.source = "iotdb" then
    match s.iotdb with
    | none => none
    | some c => env.iotdbQuery c spec.query spec.resultField
  else if spec.source = "redis" then
    let conn := if spec.connection = "" then "default" else spec.connection
    match s.redis.lookup conn with
    | none => none
    | some c => env.redisQuery c spec.query
  else if spec.source = "restapi" then
    let conn := if spec.connection = "" then "default" else spec.connection
    match s.restapi.lookup conn with
    | none => none
    | some c => env.restapiQuery c spec.query spec.resultField
  else none

/-- The per-holder loop of `Service.execute` over the snapshot: a failing
query sets the gauge to NaN and counts one error; a successful query writes
the value; either write dies (`none`) when the holder's gauge is the nil
interface value, i.e. for non-gauge instruments.  Returns the updated
holders, the number of errors, and whether any metric succeeded. -/
def executeRound (env : Env) (s : ServiceState) :
    List MetricHolder → Option (List MetricHolder × ℕ × Bool)
  | [] => some ([], 0, false)
  | h :: rest =>
    match queryMetric env s h.spec with
    | none =>
      match h.gauge with
      | none => none
      | some _ =>
        match executeRound env s rest with
        | none => none
        | some (hs, errs, succ) =>
          some ({ h with gauge := some GVal.nan } :: hs, errs + 1, succ)
    | some v =>
      match h.gauge with
      | none => none
      | some _ =>
        match executeRound env s rest with
        | none => none
        | some (hs, errs, _) =>
          some ({ h with gauge := some (GVal.num v) } :: hs, errs, true)

/-- `Service.execute`: snapshot the holder list, run the round, and set the
last-success timestamp when at least one metric succeeded. -/
def execute (env : Env) (s : ServiceState) : Option ServiceState :=
  match executeRound env s s.metrics with
  | none => none
  | some (hs, errs, succ) =>
    some { s with
             metrics := hs,
             errorCount := s.errorCount + errs,
             lastRun := if succ then some env.now else s.lastRun }

/-- `ReloadResult`. -/
structure ReloadResult where
  success : Bool
  error : String
  message : String
  metrics : List String
  removed : List String
deriving DecidableEq, Repr

/-- A failed reload result, with `Error` set and the remaining fields at
their zero values. -/
def ReloadResult.failWith (msg : String) : ReloadResult :=
  { success := false, error := msg, message := "hot reload failed",
    metrics := [], removed := [] }

/-- The `removed` list of a reload: current holder names absent from the
new metric list (first-appearance order determinizes the set iteration). -/
def removedNames (holders : List MetricHolder) (newCfg : Config) : List String :=
  dedupStrings ((holders.map (fun h => h.spec.name)).filter
    (fun n => !(newCfg.metrics.any (fun m => m.name = n))))

/-- The first loop of `ReloadConfig`: unregister the collector of every
holder whose name is not kept.  The source passes `holder.gauge` to
`Unregister` here, so reaching a removed non-gauge holder dies on the nil
interface value (`none`). -/
def unregisterRemoved (reg : List Desc) (newNames : List String) :
    List MetricHolder → Option (List Desc)
  | [] => some reg
  | h :: rest =>
    if newNames.contains h.spec.name then unregisterRemoved reg newNames rest
    else
      match h.gauge with
      | none => none
      | some _ => unregisterRemoved (unregisterDesc reg h.desc) newNames rest

/-- Drop the clients whose connection name is no longer needed. -/
def dropUnneeded {α : Type} (clients : List (String × α)) (needed : List String) :
    List (String × α) :=
  clients.filter (fun nc => needed.contains nc.1)

/-- The IoTDB reconciliation of `ReloadConfig`: close the singleton when no
metric needs it; open it when needed and absent, a failure being only a
warning (the slot stays empty). -/
def reconcileIoTDB (env : Env) (needs : Bool) (cur : Option IoTDBConfig)
    (newCfg : Config) : Option IoTDBConfig :=
  if !needs then none
  else
    match cur with
    | some c => some c
    | none => if env.iotdbOpenOK newCfg.iotdb then some newCfg.iotdb else none

/-- The rebuild-on-change block shared by the three ensure loops: a stored
client whose old configuration is missing or differs from the new one is
closed and dropped from the map. -/
def dropIfChanged {α : Type} (equal : α → α → Bool) (oldc : Option α) (newC : α)
    (n : String) (clients : List (String × α)) : List (String × α) :=
  match clients.lookup n with
  | none => clients
  | some _ =>
    match oldc with
    | none => clients.filter (fun kv => kv.1 ≠ n)
    | some oldC =>
      if equal oldC newC then clients
      else clients.filter (fun kv => kv.1 ≠ n)

/-- The open block of the MySQL and Redis ensure loops: an absent slot is
opened; an open failure is only a warning and leaves the slot empty. -/
def openIfAbsent {α : Type} (openOK : α → Bool) (n : String) (c : α)
    (clients : List (String × α)) : List (String × α) :=
  if (clients.lookup n).isSome then clients
  else if openOK c then clients ++ [(n, c)] else clients

/-- The MySQL ensure loop of `ReloadConfig`: a needed connection without a
configuration fails the reload; a changed client is rebuilt; an open
failure is only a warning.  Returns the client map together with the error
that stopped the loop, if any. -/
def ensureMySQL (env : Env) (oldCfg newCfg : Config) :
    List String → List (String × MySQLConfig) →
    List (String × MySQLConfig) × Option String
  | [], clients => (clients, none)
  | n :: rest, clients =>
    match newCfg.mysqlConfigFor n with
    | none => (clients, some ("MySQL connection " ++ n ++ " not found"))
    | some c =>
      ensureMySQL env oldCfg newCfg rest
        (openIfAbsent env.mysqlOpenOK n c
          (dropIfChanged mysqlConfigEqual (oldCfg.mysqlConfigFor n) c n clients))

/-- The Redis ensure loop, of the same shape as the MySQL one; open
failures are warnings. -/
def ensureRedis (env : Env) (oldCfg newCfg : Config) :
    List String → List (String × RedisConfig) →
    List (String × RedisConfig) × Option String
  | [], clients => (clients, none)
  | n :: rest, clients =>
    match newCfg.redisConfigFor n with
    | none => (clients, some ("Redis connection " ++ n ++ " not found"))
    | some c =>
      ensureRedis env oldCfg newCfg rest
        (openIfAbsent env.redisOpenOK n c
          (dropIfChanged redisConfigEqual (oldCfg.redisConfigFor n) c n clients))

/-- The RestAPI ensure loop.  Unlike MySQL and Redis, an open failure here
is FATAL: the loop stops with an error and the reload fails. -/
def ensureRestAPI (env : Env) (oldCfg newCfg : Config) :
    List String → List (String × RestAPIConfig) →
    List (String × RestAPIConfig) × Option String
  | [], clients => (clients, none)
  | n :: rest, clients =>
    match newCfg.restapiConfigFor n with
    | none => (clients, some ("RestAPI connection " ++ n ++ " not found"))
    | some c =>
      if ((dropIfChanged restapiConfigEqual (oldCfg.restapiConfigFor n) c n
            clients).lookup n).isSome then
        ensureRestAPI env oldCfg newCfg rest
          (dropIfChanged restapiConfigEqual (oldCfg.restapiConfigFor n) c n clients)
      else if env.restapiOpenOK c then
        ensureRestAPI env oldCfg newCfg rest
          ((dropIfChanged restapiConfigEqual (oldCfg.restapiConfigFor n) c n clients) ++
            [(n, c)])
      else ((dropIfChanged restapiConfigEqual (oldCfg.restapiConfigFor n) c n clients),
        some ("init RestAPI connection " ++ n ++ " failed"))

/-- The client-reconciliation phase of `ReloadConfig`, in source order:
drop unneeded clients of the three keyed kinds, reconcile the IoTDB
singleton, then run the MySQL, Redis and RestAPI ensure loops, stopping at
the first error. -/
def reloadClients (env : Env) (oldCfg newCfg : Config)
    (mysql : List (String × MySQLConfig)) (redis : List (String × RedisConfig))
    (restapi : List (String × RestAPIConfig)) (iotdb : Option IoTDBConfig) :
    List (String × MySQLConfig) × List (String × RedisConfig) ×
    List (String × RestAPIConfig) × Option IoTDBConfig × Option String :=
  let mysql0 := dropUnneeded mysql (connectionsNeeded "mysql" newCfg)
  let redis0 := dropUnneeded redis (connectionsNeeded "redis" newCfg)
  let restapi0 := dropUnneeded restapi (connectionsNeeded "restapi" newCfg)
  let iotdb1 := reconcileIoTDB env (needsSource newCfg.metrics "iotdb") iotdb newCfg
  let mres := ensureMySQL env oldCfg newCfg (connectionsNeeded "mysql" newCfg) mysql0
  match mres.2 with
  | some e => (mres.1, redis0, restapi0, iotdb1, some e)
  | none =>
    let rres := ensureRedis env oldCfg newCfg (connectionsNeeded "redis" newCfg) redis0
    match rres.2 with
    | some e => (mres.1, rres.1, restapi0, iotdb1, some e)
    | none =>
      let ares := ensureRestAPI env oldCfg newCfg (connectionsNeeded "restapi" newCfg) restapi0
      (mres.1, rres.1, ares.1, iotdb1, ares.2)

/-- Unregister every current holder's collector (the final unregister-all
loop before the rebuild; it uses `holder.collector`, which is never nil). -/
def unregisterAll (reg : List Desc) (holders : List MetricHolder) : List Desc :=
  holders.foldl (fun r h => unregisterDesc r h.desc) reg

/-- The synchronous collection loop at the end of a successful reload: a
query error only logs and continues (no NaN write, no error count); a
successful query writes the gauge, dying on a nil gauge (`none`). -/
def reloadCollect (env : Env) (s : ServiceState) :
    List MetricHolder → Option (List MetricHolder)
  | [] => some []
  | h :: rest =>
    match queryMetric env s h.spec with
    | none =>
      match reloadCollect env s rest with
      | none => none
      | some hs => some (h :: hs)
    | some v =>
      match h.gauge with
      | none => none
      | some _ =>
        match reloadCollect env s rest with
        | none => none
        | some hs => some ({ h with gauge := some (GVal.num v) } :: hs)

/-- `Service.ReloadConfig`: compute the removed names and unregister their
collectors; reconcile the client maps (stopping with a failed result on a
fatal client error); unregister every old instrument and clear the holder
list; rebuild the holders from the new metric list, a registration error
failing the reload with the partial registrations left in place; publish
the new state and run one synchronous collection round before returning
success. -/
def reloadConfig (env : Env) (s : ServiceState) (newCfg : Config) :
    Option (ServiceState × ReloadResult) :=
  let newNames := newCfg.metrics.map (fun m => m.name)
  let removed := removedNames s.metrics newCfg
  match unregisterRemoved s.registry newNames s.metrics with
  | none => none
  | some reg1 =>
    let cl := reloadClients env s.cfg newCfg s.mysql s.redis s.restapi s.iotdb
    let s1 := { s with
                  registry := reg1,
                  mysql := cl.1,
                  redis := cl.2.1,
                  restapi := cl.2.2.1,
                  iotdb := cl.2.2.2.1 }
    match cl.2.2.2.2 with
    | some e => some (s1, ReloadResult.failWith e)
    | none =>
      let reg2 := unregisterAll s1.registry s1.metrics
      let s2 := { s1 with registry := reg2, metrics := [] }
      match buildMetrics ⟨[], [], [], reg2, []⟩ newCfg.metrics with
      | .badType _ => none
      | .regErr msg bst =>
        some ({ s2 with registry := bst.registry }, ReloadResult.failWith msg)
      | .ok bst =>
        let s3 := { s2 with
                      registry := bst.registry,
                      metrics := bst.holders,
                      cfg := newCfg }
        match reloadCollect env s3 s3.metrics with
        | none => none
        | some hs =>
          some ({ s3 with metrics := hs },
            { success := true, error := "", message := "hot reload succeeded",
              metrics := bst.newNames, removed := removed })

/-- The states reachable through service construction, hot reloads, and
collection rounds. -/
inductive Reachable : ServiceState → Prop
  | init (env : Env) (cfg : Config) (s : ServiceState) :
      newService env cfg = some s → Reachable s
  | reload (env : Env) (s s' : ServiceState) (newCfg : Config) (res : ReloadResult) :
      Reachable s → reloadConfig env s newCfg = some (s', res) → Reachable s'
  | collect (env : Env) (s s' : ServiceState) :
      Reachable s → execute env s = some s' → Reachable s'

/-! ## Concrete example data used by witnesses and counterexamples -/

/-- A gauge metric named `m` with label map `ab ↦ c`. -/
def exSpecM : MetricSpec :=
  { name := "m", help := "A", type := "", source := "mysql",
    query := "SELECT 1", labels := [("ab", "c")], resultField := "",
    connection := "", buckets := [], objectives := [] }

/-- A gauge metric named `ma` with label map `b ↦ c`: a distinct
fingerprint, the same duplicate-detection key as `exSpecM`. -/
def exSpecMa : MetricSpec :=
  { name := "ma", help := "B", type := "gauge", source := "mysql",
    query := "SELECT 2", labels := [("b", "c")], resultField := "",
    connection := "", buckets := [], objectives := [] }

/-- A MySQL connection configuration. -/
def exMySQL : MySQLConfig :=
  { host := "h", port := 3306, user := "u", password := "p",
    database := "d", params := [] }

/-- A metric whose name violates the spec's name pattern but passes every
check of `Config.Validate`. -/
def exSpecBadName : MetricSpec :=
  { name := "1bad", help := "bad name", type := "", source := "mysql",
    query := "SELECT 1", labels := [], resultField := "",
    connection := "", buckets := [], objectives := [] }

/-- A configuration carrying only `exSpecBadName`. -/
def exCfgBadName : Config :=
  { schedule := ⟨"1h"⟩, prometheus := ⟨"", 8080⟩,
    mysql := exMySQL, mysqlConnections := [("default", exMySQL)],
    redis := ⟨"", "", "", "", 0, false, false⟩, redisConnections := [],
    restapiConnections := [],
    iotdb := ⟨"", 0, "", "", 0, "", false, false, 0⟩,
    metrics := [exSpecBadName] }

/-- A counter-kind metric: its holder carries no gauge reference. -/
def exSpecCounterC4 : MetricSpec :=
  { name := "c_total", help := "counter", type := "counter", source := "mysql",
    query := "SELECT c", labels := [], resultField := "",
    connection := "", buckets := [], objectives := [] }

/-- A gauge sibling of `exSpecCounterC4` whose query succeeds. -/
def exSpecGaugeC4 : MetricSpec :=
  { name := "g_value", help := "gauge", type := "gauge", source := "mysql",
    query := "SELECT g", labels := [], resultField := "",
    connection := "", buckets := [], objectives := [] }

/-- A configuration carrying the counter metric before its gauge sibling. -/
def exCfgC4 : Config :=
  { schedule := ⟨"1h"⟩, prometheus := ⟨"", 8080⟩,
    mysql := exMySQL, mysqlConnections := [("default", exMySQL)],
    redis := ⟨"", "", "", "", 0, false, false⟩, redisConnections := [],
    restapiConnections := [],
    iotdb := ⟨"", 0, "", "", 0, "", false, false, 0⟩,
    metrics := [exSpecCounterC4, exSpecGaugeC4] }

/-- An environment where every open succeeds, the gauge sibling's query
returns 5, and every other query fails. -/
def exEnvC4 : Env :=
  { mysqlOpenOK := fun _ => true, redisOpenOK := fun _ => true,
    iotdbOpenOK := fun _ => true, restapiOpenOK := fun _ => true,
    mysqlQuery := fun _ q => if q = "SELECT g" then some 5 else none,
    redisQuery := fun _ _ => none, iotdbQuery := fun _ _ _ => none,
    restapiQuery := fun _ _ _ => none, now := 100 }

/-- A metric with an empty name. -/
def exSpecEmptyName : MetricSpec :=
  { name := "", help := "", type := "", source := "mysql",
    query := "SELECT 1", labels := [], resultField := "",
    connection := "", buckets := [], objectives := [] }

/-- A configuration carrying only `exSpecEmptyName`. -/
def exCfgEmptyName : Config :=
  { exCfgBadName with metrics := [exSpecEmptyName] }

/-! ## Small helper lemmas -/

theorem lookup_append {α β : Type} [BEq α] (l1 l2 : List (α × β)) (a : α) :
    (l1 ++ l2).lookup a =
      match l1.lookup a with
      | some b => some b
      | none => l2.lookup a := by
  induction l1 with
  | nil => simp [List.lookup]
  | cons hd tl ih =>
    simp only [List.cons_append, List.lookup]
    by_cases h : a == hd.1
    · simp [h]
    · simp only [h]
      exact ih

theorem orElse_fold_ne_none (l : List (Option String)) (x : String)
    (hx : some x ∈ l) :
    l.foldr (fun e acc => e.orElse (fun _ => acc)) none ≠ none := by
  induction l with
  | nil => cases hx
  | cons hd tl ih =>
    rcases List.mem_cons.mp hx with h | h
    · subst h
      simp [Option.orElse]
    · cases hd with
      | none =>
        simpa [Option.orElse] using ih h
      | some y => simp [Option.orElse]

/-! ## C7: the duplicate-detection key collides across distinct
fingerprints -/

/-- C7: the duplicate-instrument key is the plain concatenation of the
metric name and the serialized sorted label pairs; the specs `exSpecM`
(name `m`, labels `ab ↦ c`) and `exSpecMa` (name `ma`, labels `b ↦ c`)
both yield the key `mab=c;` while their fingerprints differ, and the
registration loop run on the two registers only the first. -/
theorem c7_duplicate_key_collision :
    labelKey exSpecM = "mab=c;" ∧ labelKey exSpecMa = "mab=c;" ∧
    fingerprint exSpecM ≠ fingerprint exSpecMa ∧
    ∃ st, buildMetrics ⟨[], [], [], [], []⟩ [exSpecM, exSpecMa] = .ok st ∧
      st.holders.map (fun h => h.spec.name) = ["m"] ∧
      st.holders.length = 1 :=
  ⟨rfl, rfl, by decide, _, rfl, rfl, rfl⟩

/-! ## C9: the Redis allow-list rejects foreign commands before dispatch -/

/-- Whether the first whitespace-delimited token of a raw key-value query,
after uppercasing, lies in the allow-list (false also when there is no
token at all). -/
def firstTokenAllowed (raw : String) : Bool :=
  match goFields raw with
  | [] => false
  | t :: _ => allowedRedisCommands.contains (goToUpper t)

/-- C9: a key-value query whose first whitespace token, uppercased, is
outside the allow-list — or that has no token at all — makes
`RedisClient.QueryScalar` return an error whose text does not depend on
the backend oracle, hence without dispatching any command. -/
theorem c9_redis_allowlist (raw : String)
    (h : firstTokenAllowed raw = false) :
    ∃ msg, msg ≠ "" ∧
      ∀ (pf : String → Option ℚ)
        (doCmd : String → List String → Except String RedisVal),
        redisQueryScalar pf doCmd raw = .error msg := by
  unfold firstTokenAllowed at h
  cases hf : goFields raw with
  | nil =>
    refine ⟨"Redis command must not be empty", by decide, fun pf doCmd => ?_⟩
    simp [redisQueryScalar, parseRedisCommand, hf]
  | cons t rest =>
    rw [hf] at h
    have h' : ¬ (goToUpper t ∈ allowedRedisCommands) := by simpa using h
    refine ⟨"Redis command " ++ goToUpper t ++ " is not allowed, use read-only commands",
      ?_, fun pf doCmd => ?_⟩
    · intro habs
      have := congrArg String.data habs
      simp [String.data_append] at this
    · simp [redisQueryScalar, parseRedisCommand, hf, h']

/-- Witness for C9 at the concrete queries `DEL foo` (a write command) and
`  ` (all-whitespace). -/
theorem c9_redis_allowlist_witness :
    (∃ msg, msg ≠ "" ∧
      ∀ (pf : String → Option ℚ)
        (doCmd : String → List String → Except String RedisVal),
        redisQueryScalar pf doCmd "DEL foo" = .error msg) ∧
    (∃ msg, msg ≠ "" ∧
      ∀ (pf : String → Option ℚ)
        (doCmd : String → List String → Except String RedisVal),
        redisQueryScalar pf doCmd "  " = .error msg) :=
  ⟨c9_redis_allowlist "DEL foo" (by decide),
   c9_redis_allowlist "  " (by decide)⟩

/-! ## C10: the HTTP scalar coercion does not accept booleans -/

/-- Counterexample to C10: a response whose selected field is the JSON
boolean `true` makes the coercion fail with an unsupported-type error, so
`QueryScalar` (which applies `extractJSONValue` to the decoded body) does
not return 1 as claimed. -/
theorem c10_counterexample :
    extractJSONValue (fun _ => none) (JVal.obj [("ok", JVal.boolean true)]) "ok" =
      .error "unsupported type bool for conversion to a number" ∧
    toFloat (fun _ => none) (JVal.boolean true) ≠ .ok 1 := by
  constructor
  · simp [extractJSONValue, splitPath, splitPathAux, walkPath, parseArrayIndex,
      parseGoInt, toFloat, List.lookup]
  · simp [toFloat]

/-- C10 as amended: the scalar coercion `toFloat` accepts numbers and
numeric strings (those the float parser accepts), while null fails AND
booleans also fail — `toFloat` has no boolean case, so the default
unsupported-type branch applies to `true` as well as `false`; selecting a
boolean field through `result_field` therefore errors for every parser
oracle. -/
theorem c10_scalar_coercion (pf : String → Option ℚ) (q : ℚ) (s : String) (b : Bool) :
    toFloat pf (JVal.num q) = .ok q ∧
    (pf s = some q → toFloat pf (JVal.str s) = .ok q) ∧
    (∃ m, m ≠ "" ∧ toFloat pf JVal.null = .error m) ∧
    (∃ m, m ≠ "" ∧ toFloat pf (JVal.boolean b) = .error m) ∧
    extractJSONValue pf (JVal.obj [("ok", JVal.boolean b)]) "ok" =
      .error "unsupported type bool for conversion to a number" := by
  refine ⟨rfl, fun hpf => ?_, ⟨"value is nil", by decide, rfl⟩,
    ⟨"unsupported type bool for conversion to a number", by decide, rfl⟩, ?_⟩
  · simp [toFloat, hpf]
  · simp [extractJSONValue, splitPath, splitPathAux, walkPath, parseArrayIndex,
      parseGoInt, toFloat, List.lookup]

/-- A concrete float-parser oracle accepting exactly the string `7`. -/
def exParseFloat : String → Option ℚ :=
  fun x => if x = "7" then some 7 else none

/-- Witness for the amended C10 at the concrete parser oracle
`exParseFloat`, the numeric string `7`, and the boolean `true`. -/
theorem c10_scalar_coercion_witness :
    toFloat exParseFloat (JVal.num 7) = .ok 7 ∧
    toFloat exParseFloat (JVal.str "7") = .ok 7 ∧
    (∃ m, m ≠ "" ∧ toFloat exParseFloat JVal.null = .error m) ∧
    (∃ m, m ≠ "" ∧ toFloat exParseFloat (JVal.boolean true) = .error m) ∧
    extractJSONValue exParseFloat (JVal.obj [("ok", JVal.boolean true)]) "ok" =
      .error "unsupported type bool for conversion to a number" := by
  have h := c10_scalar_coercion exParseFloat 7 "7" true
  exact ⟨h.1, h.2.1 (by simp [exParseFloat]), h.2.2.1, h.2.2.2.1, h.2.2.2.2⟩

/-! ## C8: validation checks metric names only for emptiness -/

/-- Counterexample to C8: the configuration `exCfgBadName`, whose only
metric is named `1bad` — a name violating the spec's pattern — passes
`Config.Validate` without an error. -/
theorem c8_counterexample :
    exCfgBadName.validate = none ∧ specMetricNamePattern "1bad" = false ∧
    exCfgBadName.metrics.map (fun m => m.name) = ["1bad"] :=
  ⟨rfl, by decide, rfl⟩

/-- C8 as amended: `Config.Validate` rejects any configuration containing a
metric with an EMPTY name, but it does not check names against the
pattern `[a-zA-Z_:][a-zA-Z0-9_:]*`: a metric whose name violates the
pattern (such as `1bad`) passes validation, and is only rejected later by
the registry when the instrument is registered. -/
theorem c8_validate_names (c : Config) (m : MetricSpec)
    (hm : m ∈ c.metrics) (hname : m.name = "") :
    c.validate ≠ none ∧
    (exCfgBadName.validate = none ∧ specMetricNamePattern "1bad" = false) := by
  refine ⟨?_, rfl, by decide⟩
  intro hnone
  unfold Config.validate at hnone
  split at hnone
  · exact Option.noConfusion hnone
  · split at hnone
    · exact Option.noConfusion hnone
    · split at hnone
      · exact Option.noConfusion hnone
      · have herr : metricSpecError c m = some "metric name must not be empty" := by
          unfold metricSpecError
          rw [hname]
          rfl
        have hmem : some "metric name must not be empty" ∈ c.metrics.map (metricSpecError c) := by
          exact List.mem_map.mpr ⟨m, hm, herr⟩
        exact orElse_fold_ne_none _ _ hmem hnone

/-- Witness for the amended C8 at the concrete configuration whose only
metric has the empty name. -/
theorem c8_validate_names_witness :
    exCfgEmptyName.validate ≠ none ∧
    (exCfgBadName.validate = none ∧ specMetricNamePattern "1bad" = false) :=
  c8_validate_names exCfgEmptyName exSpecEmptyName (by decide) rfl

/-! ## C4: per-metric isolation in a collection round -/

/-- The effect of one collection-round step on a holder: a failing query
writes NaN, a successful one writes the value. -/
def gaugeAfterQuery (env : Env) (s : ServiceState) (h : MetricHolder) : MetricHolder :=
  match queryMetric env s h.spec with
  | none => { h with gauge := some GVal.nan }
  | some v => { h with gauge := some (GVal.num v) }

theorem executeRound_map (env : Env) (s : ServiceState) :
    ∀ hs0 : List MetricHolder, (∀ h ∈ hs0, h.gauge ≠ none) →
    executeRound env s hs0 =
      some (hs0.map (gaugeAfterQuery env s),
        (hs0.filter (fun h => (queryMetric env s h.spec).isNone)).length,
        hs0.any (fun h => (queryMetric env s h.spec).isSome)) := by
  intro hs0
  induction hs0 with
  | nil => intro _; rfl
  | cons h0 rest ih =>
    intro hall
    have hg : h0.gauge ≠ none := hall h0 (List.mem_cons_self h0 rest)
    have hrest := ih (fun h hm => hall h (List.mem_cons_of_mem h0 hm))
    cases hq : queryMetric env s h0.spec with
    | none =>
      cases hgv : h0.gauge with
      | none => exact absurd hgv hg
      | some g0 =>
        simp [executeRound, hq, hgv, hrest, gaugeAfterQuery, List.filter, Option.isNone,
          Option.isSome]
    | some v =>
      cases hgv : h0.gauge with
      | none => exact absurd hgv hg
      | some g0 =>
        simp [executeRound, hq, hgv, hrest, gaugeAfterQuery, List.filter, Option.isNone,
          Option.isSome]

theorem executeRound_crash (env : Env) (s : ServiceState) :
    ∀ (hs0 : List MetricHolder) (h : MetricHolder), h ∈ hs0 → h.gauge = none →
    executeRound env s hs0 = none := by
  intro hs0
  induction hs0 with
  | nil => intro h hm; cases hm
  | cons h0 rest ih =>
    intro h hm hg
    rcases List.mem_cons.mp hm with rfl | hm'
    · cases hq : queryMetric env s h.spec <;> simp [executeRound, hq, hg]
    · have hrest := ih h hm' hg
      cases hq : queryMetric env s h0.spec with
      | none =>
        cases hgv : h0.gauge <;> simp [executeRound, hq, hgv, hrest]
      | some v =>
        cases hgv : h0.gauge <;> simp [executeRound, hq, hgv, hrest]

/-- Counterexample to C4: a snapshot holding a counter-kind metric (whose
holder carries the nil gauge interface) and a gauge sibling whose query
would succeed.  The round dies on the nil gauge instead of writing NaN and
continuing, so the sibling is never written. -/
theorem c4_counterexample :
    ∃ s, newService exEnvC4 exCfgC4 = some s ∧
      (s.metrics.map (fun h => h.gauge)) = [none, some (GVal.num 0)] ∧
      queryMetric exEnvC4 s exSpecGaugeC4 = some 5 ∧
      execute exEnvC4 s = none :=
  ⟨_, rfl, rfl, rfl, rfl⟩

/-- C4 as amended: in a collection round over a snapshot of gauge-kind
handles, every handle is written independently — value on success, NaN
plus one `collector_errors_total` increment on failure — and the round
continues past failures; but any non-gauge handle (counter, histogram,
summary) in the snapshot kills the whole round with a nil-gauge
dereference when reached, so such a handle disables its siblings. -/
theorem c4_round_isolation :
    (∀ (env : Env) (s : ServiceState), (∀ h ∈ s.metrics, h.gauge ≠ none) →
      execute env s = some { s with
        metrics := s.metrics.map (gaugeAfterQuery env s),
        errorCount := s.errorCount +
          (s.metrics.filter (fun h => (queryMetric env s h.spec).isNone)).length,
        lastRun := if s.metrics.any (fun h => (queryMetric env s h.spec).isSome)
          then some env.now else s.lastRun }) ∧
    (∀ (env : Env) (s : ServiceState) (h : MetricHolder),
      h ∈ s.metrics → h.gauge = none → execute env s = none) := by
  constructor
  · intro env s hall
    rw [execute, executeRound_map env s s.metrics hall]
  · intro env s h hm hg
    rw [execute, executeRound_crash env s s.metrics h hm hg]

/-- The holder of the counter metric: a nil gauge. -/
def exHolderCounter : MetricHolder :=
  { spec := exSpecCounterC4, desc := mkDesc exSpecCounterC4, gauge := none }

/-- The holder of the gauge metric. -/
def exHolderGauge : MetricHolder :=
  { spec := exSpecGaugeC4, desc := mkDesc exSpecGaugeC4, gauge := some (GVal.num 0) }

/-- A service state holding only the gauge metric. -/
def exStateAllGauge : ServiceState :=
  { cfg := exCfgC4, mysql := [("default", exMySQL)], redis := [], restapi := [],
    iotdb := none, metrics := [exHolderGauge],
    registry := [mkDesc exSpecGaugeC4, errorCountDesc, lastRunDesc],
    errorCount := 0, lastRun := none }

/-- The same state with the counter holder in front of the gauge holder. -/
def exStateWithCounter : ServiceState :=
  { exStateAllGauge with metrics := [exHolderCounter, exHolderGauge] }

/-- Witness for the amended C4: the all-gauge snapshot runs to completion
with the per-holder writes, while the snapshot containing the counter
holder dies. -/
theorem c4_round_isolation_witness :
    execute exEnvC4 exStateAllGauge = some { exStateAllGauge with
      metrics := exStateAllGauge.metrics.map (gaugeAfterQuery exEnvC4 exStateAllGauge),
      errorCount := exStateAllGauge.errorCount +
        (exStateAllGauge.metrics.filter
          (fun h => (queryMetric exEnvC4 exStateAllGauge h.spec).isNone)).length,
      lastRun := if exStateAllGauge.metrics.any
          (fun h => (queryMetric exEnvC4 exStateAllGauge h.spec).isSome)
        then some exEnvC4.now else exStateAllGauge.lastRun } ∧
    execute exEnvC4 exStateWithCounter = none :=
  ⟨c4_round_isolation.1 exEnvC4 exStateAllGauge (by decide),
   c4_round_isolation.2 exEnvC4 exStateWithCounter exHolderCounter (by decide) rfl⟩

/-! ## Lemmas about the reload pipeline -/

/-- The effect of the post-reload collection on one holder: a failing
query leaves it untouched, a successful one writes the value. -/
def collectAfter (env : Env) (s : ServiceState) (h : MetricHolder) : MetricHolder :=
  match queryMetric env s h.spec with
  | none => h
  | some v => { h with gauge := some (GVal.num v) }

theorem reloadCollect_some (env : Env) (s : ServiceState) :
    ∀ hs0 hs, reloadCollect env s hs0 = some hs →
      hs = hs0.map (collectAfter env s) := by
  intro hs0
  induction hs0 with
  | nil =>
    intro hs h
    simp [reloadCollect] at h
    subst h
    rfl
  | cons h0 rest ih =>
    intro hs h
    cases hq : queryMetric env s h0.spec with
    | none =>
      rw [reloadCollect, hq] at h
      cases hr : reloadCollect env s rest with
      | none => rw [hr] at h; cases h
      | some tl =>
        rw [hr] at h
        cases h
        simp [collectAfter, hq, ih tl hr]
    | some v =>
      rw [reloadCollect, hq] at h
      cases hgv : h0.gauge with
      | none => rw [hgv] at h; cases h
      | some g0 =>
        rw [hgv] at h
        cases hr : reloadCollect env s rest with
        | none => rw [hr] at h; cases h
        | some tl =>
          rw [hr] at h
          cases h
          simp [collectAfter, hq, ih tl hr]

theorem registerDesc_ok_eq (reg : List Desc) (d : Desc) (reg' : List Desc)
    (h : registerDesc reg d = .ok reg') : reg' = reg ++ [d] := by
  unfold registerDesc at h
  split at h
  · cases h
  · split at h
    · cases h
    · cases h; rfl

theorem registerDesc_error_ne (reg : List Desc) (d : Desc) (msg : String)
    (h : registerDesc reg d = .error msg) : msg ≠ "" := by
  unfold registerDesc at h
  split at h
  · cases h
    intro habs
    have := congrArg String.data habs
    simp [String.data_append] at this
  · split at h
    · cases h
      intro habs
      have := congrArg String.data habs
      simp [String.data_append] at this
    · cases h

theorem mkCollector_gauge (spec : MetricSpec) (d : Desc) (g : Option GVal)
    (h : mkCollector spec = some (d, g)) :
    g = some (GVal.num 0) ∨ g = none := by
  unfold mkCollector at h
  split at h
  · cases h; left; rfl
  · split at h
    · cases h; right; rfl
    · cases h

@[simp] theorem stabilizeHelpSt_registry (st : BuildSt) (spec : MetricSpec) :
    (stabilizeHelpSt st spec).registry = st.registry := by
  unfold stabilizeHelpSt; split <;> rfl

@[simp] theorem stabilizeHelpSt_holders (st : BuildSt) (spec : MetricSpec) :
    (stabilizeHelpSt st spec).holders = st.holders := by
  unfold stabilizeHelpSt; split <;> rfl

@[simp] theorem stabilizeHelpSt_newNames (st : BuildSt) (spec : MetricSpec) :
    (stabilizeHelpSt st spec).newNames = st.newNames := by
  unfold stabilizeHelpSt; split <;> rfl

@[simp] theorem stabilizeHelpSt_registered (st : BuildSt) (spec : MetricSpec) :
    (stabilizeHelpSt st spec).registered = st.registered := by
  unfold stabilizeHelpSt; split <;> rfl

@[simp] theorem markKey_registry (st : BuildSt) (spec : MetricSpec) :
    (markKey st spec).registry = st.registry := rfl

@[simp] theorem markKey_holders (st : BuildSt) (spec : MetricSpec) :
    (markKey st spec).holders = st.holders := rfl

@[simp] theorem markKey_helpMap (st : BuildSt) (spec : MetricSpec) :
    (markKey st spec).helpMap = st.helpMap := rfl

@[simp] theorem markKey_newNames (st : BuildSt) (spec : MetricSpec) :
    (markKey st spec).newNames = st.newNames := rfl

theorem buildStep_proceed_registry (st : BuildSt) (spec : MetricSpec) (st2 : BuildSt)
    (h : buildStep st spec = .proceed st2) :
    ∃ suffix, st2.registry = st.registry ++ suffix := by
  unfold buildStep at h
  split at h
  · cases h; exact ⟨[], by simp⟩
  · cases hmk : mkCollector (stabilizeHelpSpec (markKey st spec) spec) with
    | none => simp only [hmk] at h; cases h
    | some dg =>
      obtain ⟨d, g⟩ := dg
      simp only [hmk] at h
      cases hreg : registerDesc (stabilizeHelpSt (markKey st spec) spec).registry d with
      | error msg' => simp only [hreg] at h; cases h
      | ok reg =>
        simp only [hreg] at h
        cases h
        have hr := registerDesc_ok_eq _ _ _ hreg
        simp only [stabilizeHelpSt_registry, markKey_registry] at hr
        exact ⟨[d], by simp [hr]⟩

theorem buildStep_proceed_desc (st : BuildSt) (spec : MetricSpec) (st2 : BuildSt)
    (h : buildStep st spec = .proceed st2)
    (hinv : ∀ h0 ∈ st.holders, h0.desc ∈ st.registry) :
    ∀ h0 ∈ st2.holders, h0.desc ∈ st2.registry := by
  unfold buildStep at h
  split at h
  · cases h; exact hinv
  · cases hmk : mkCollector (stabilizeHelpSpec (markKey st spec) spec) with
    | none => simp only [hmk] at h; cases h
    | some dg =>
      obtain ⟨d, g⟩ := dg
      simp only [hmk] at h
      cases hreg : registerDesc (stabilizeHelpSt (markKey st spec) spec).registry d with
      | error msg' => simp only [hreg] at h; cases h
      | ok reg =>
        simp only [hreg] at h
        cases h
        intro h0 hm
        have hr := registerDesc_ok_eq _ _ _ hreg
        simp only [stabilizeHelpSt_registry, markKey_registry] at hr
        simp only [stabilizeHelpSt_holders, markKey_holders] at hm
        rcases List.mem_append.mp hm with hold | hnew
        · simp only [hr, List.mem_append]
          exact Or.inl (hinv h0 hold)
        · rcases List.mem_singleton.mp hnew with rfl
          simp [hr, List.mem_append]

theorem buildStep_regErr_inv (st : BuildSt) (spec : MetricSpec) (msg : String)
    (st2 : BuildSt) (h : buildStep st spec = .regErrStep msg st2) :
    st2.registry = st.registry ∧ st2.holders = st.holders ∧ msg ≠ "" := by
  unfold buildStep at h
  split at h
  · cases h
  · cases hmk : mkCollector (stabilizeHelpSpec (markKey st spec) spec) with
    | none => simp only [hmk] at h; cases h
    | some dg =>
      obtain ⟨d, g⟩ := dg
      simp only [hmk] at h
      cases hreg : registerDesc (stabilizeHelpSt (markKey st spec) spec).registry d with
      | error msg' =>
        simp only [hreg] at h
        cases h
        exact ⟨by simp, by simp, registerDesc_error_ne _ _ _ hreg⟩
      | ok reg => simp only [hreg] at h; cases h

theorem buildMetrics_ok_desc (specs : List MetricSpec) :
    ∀ st bst, buildMetrics st specs = .ok bst →
      (∀ h0 ∈ st.holders, h0.desc ∈ st.registry) →
      ∀ h0 ∈ bst.holders, h0.desc ∈ bst.registry := by
  induction specs with
  | nil =>
    intro st bst h hinv
    cases h
    exact hinv
  | cons spec rest ih =>
    intro st bst h hinv
    rw [buildMetrics] at h
    cases hstep : buildStep st spec with
    | proceed st2 =>
      rw [hstep] at h
      exact ih st2 bst h (buildStep_proceed_desc st spec st2 hstep hinv)
    | regErrStep msg st2 => rw [hstep] at h; cases h
    | badTypeStep st2 => rw [hstep] at h; cases h

theorem buildMetrics_regErr_inv (specs : List MetricSpec) :
    ∀ st msg bst, buildMetrics st specs = .regErr msg bst →
      (∀ h0 ∈ st.holders, h0.desc ∈ st.registry) →
      (∀ h0 ∈ bst.holders, h0.desc ∈ bst.registry) ∧ msg ≠ "" := by
  induction specs with
  | nil =>
    intro st msg bst h hinv
    cases h
  | cons spec rest ih =>
    intro st msg bst h hinv
    rw [buildMetrics] at h
    cases hstep : buildStep st spec with
    | proceed st2 =>
      rw [hstep] at h
      exact ih st2 msg bst h (buildStep_proceed_desc st spec st2 hstep hinv)
    | regErrStep msg' st2 =>
      rw [hstep] at h
      cases h
      rcases buildStep_regErr_inv st spec _ _ hstep with ⟨hr, hh, hm⟩
      refine ⟨?_, hm⟩
      intro h0 hm0
      rw [hh] at hm0
      rw [hr]
      exact hinv h0 hm0
    | badTypeStep st2 => rw [hstep] at h; cases h

/-- Every holder produced by the registration loop run from an empty holder
list starts fresh: a zeroed gauge or no gauge at all. -/
theorem buildStep_proceed_fresh (st : BuildSt) (spec : MetricSpec) (st2 : BuildSt)
    (h : buildStep st spec = .proceed st2)
    (hinv : ∀ h0 ∈ st.holders, h0.gauge = some (GVal.num 0) ∨ h0.gauge = none) :
    ∀ h0 ∈ st2.holders, h0.gauge = some (GVal.num 0) ∨ h0.gauge = none := by
  unfold buildStep at h
  split at h
  · cases h; exact hinv
  · cases hmk : mkCollector (stabilizeHelpSpec (markKey st spec) spec) with
    | none => simp only [hmk] at h; cases h
    | some dg =>
      obtain ⟨d, g⟩ := dg
      simp only [hmk] at h
      cases hreg : registerDesc (stabilizeHelpSt (markKey st spec) spec).registry d with
      | error msg' => simp only [hreg] at h; cases h
      | ok reg =>
        simp only [hreg] at h
        cases h
        intro h0 hm
        simp only [stabilizeHelpSt_holders, markKey_holders] at hm
        rcases List.mem_append.mp hm with hold | hnew
        · exact hinv h0 hold
        · rcases List.mem_singleton.mp hnew with rfl
          exact mkCollector_gauge _ _ _ hmk

/-- The state published by a successful reload just before the synchronous
collection round: new configuration, reconciled client maps, rebuilt
holders and registry. -/
def reloadSuccessState (env : Env) (s : ServiceState) (newCfg : Config)
    (bst : BuildSt) : ServiceState :=
  { s with
      cfg := newCfg,
      mysql := (reloadClients env s.cfg newCfg s.mysql s.redis s.restapi s.iotdb).1,
      redis := (reloadClients env s.cfg newCfg s.mysql s.redis s.restapi s.iotdb).2.1,
      restapi := (reloadClients env s.cfg newCfg s.mysql s.redis s.restapi s.iotdb).2.2.1,
      iotdb := (reloadClients env s.cfg newCfg s.mysql s.redis s.restapi s.iotdb).2.2.2.1,
      registry := bst.registry,
      metrics := bst.holders }

theorem reloadConfig_success_inv (env : Env) (s : ServiceState) (newCfg : Config)
    (s' : ServiceState) (res : ReloadResult)
    (h : reloadConfig env s newCfg = some (s', res)) (hsucc : res.success = true) :
    ∃ reg1 bst hs2,
      unregisterRemoved s.registry (newCfg.metrics.map (fun m => m.name)) s.metrics =
        some reg1 ∧
      (reloadClients env s.cfg newCfg s.mysql s.redis s.restapi s.iotdb).2.2.2.2 = none ∧
      buildMetrics ⟨[], [], [], unregisterAll reg1 s.metrics, []⟩ newCfg.metrics = .ok bst ∧
      reloadCollect env (reloadSuccessState env s newCfg bst) bst.holders = some hs2 ∧
      s' = { reloadSuccessState env s newCfg bst with metrics := hs2 } ∧
      res = { success := true, error := "", message := "hot reload succeeded",
              metrics := bst.newNames, removed := removedNames s.metrics newCfg } := by
  simp only [reloadConfig] at h
  cases h1 : unregisterRemoved s.registry (newCfg.metrics.map (fun m => m.name)) s.metrics with
  | none => simp only [h1] at h; cases h
  | some reg1 =>
    simp only [h1] at h
    cases h2 : (reloadClients env s.cfg newCfg s.mysql s.redis s.restapi s.iotdb).2.2.2.2 with
    | some e =>
      simp only [h2] at h
      cases h
      simp [ReloadResult.failWith] at hsucc
    | none =>
      simp only [h2] at h
      cases h3 : buildMetrics ⟨[], [], [], unregisterAll reg1 s.metrics, []⟩ newCfg.metrics with
      | badType bst => simp only [h3] at h; cases h
      | regErr msg bst =>
        simp only [h3] at h
        cases h
        simp [ReloadResult.failWith] at hsucc
      | ok bst =>
        simp only [h3] at h
        cases h4 : reloadCollect env (reloadSuccessState env s newCfg bst) bst.holders with
        | none =>
          rw [show reloadCollect env (reloadSuccessState env s newCfg bst) bst.holders =
            reloadCollect env { s with
              cfg := newCfg,
              mysql := (reloadClients env s.cfg newCfg s.mysql s.redis s.restapi s.iotdb).1,
              redis := (reloadClients env s.cfg newCfg s.mysql s.redis s.restapi s.iotdb).2.1,
              restapi := (reloadClients env s.cfg newCfg s.mysql s.redis s.restapi s.iotdb).2.2.1,
              iotdb := (reloadClients env s.cfg newCfg s.mysql s.redis s.restapi s.iotdb).2.2.2.1,
              registry := bst.registry, metrics := bst.holders } bst.holders from rfl] at h4
          simp only [h4] at h
          cases h
        | some hs2 =>
          rw [show reloadCollect env (reloadSuccessState env s newCfg bst) bst.holders =
            reloadCollect env { s with
              cfg := newCfg,
              mysql := (reloadClients env s.cfg newCfg s.mysql s.redis s.restapi s.iotdb).1,
              redis := (reloadClients env s.cfg newCfg s.mysql s.redis s.restapi s.iotdb).2.1,
              restapi := (reloadClients env s.cfg newCfg s.mysql s.redis s.restapi s.iotdb).2.2.1,
              iotdb := (reloadClients env s.cfg newCfg s.mysql s.redis s.restapi s.iotdb).2.2.2.1,
              registry := bst.registry, metrics := bst.holders } bst.holders from rfl] at h4
          simp only [h4] at h
          cases h
          exact ⟨reg1, bst, hs2, rfl, rfl, h3, h4, rfl, rfl⟩

theorem buildMetrics_ok_fresh (specs : List MetricSpec) :
    ∀ st bst, buildMetrics st specs = .ok bst →
      (∀ h0 ∈ st.holders, h0.gauge = some (GVal.num 0) ∨ h0.gauge = none) →
      ∀ h0 ∈ bst.holders, h0.gauge = some (GVal.num 0) ∨ h0.gauge = none := by
  induction specs with
  | nil =>
    intro st bst h hinv
    cases h
    exact hinv
  | cons spec rest ih =>
    intro st bst h hinv
    rw [buildMetrics] at h
    cases hstep : buildStep st spec with
    | proceed st2 =>
      rw [hstep] at h
      exact ih st2 bst h (buildStep_proceed_fresh st spec st2 hstep hinv)
    | regErrStep msg st2 => rw [hstep] at h; cases h
    | badTypeStep st2 => rw [hstep] at h; cases h

end Sql2Metrics

namespace Sql2Metrics

/-! ## C2: the synchronous post-reload collection round -/

/-- C2: whenever `ReloadConfig` returns with `Success = true`, the
synchronous collection round it runs before returning (still under the
exclusive lock, i.e. before the new state is observable) has already
written a real value — never NaN — into every instrument whose backend
query returns a valid scalar, and that instrument is registered, so the
very next scrape sees the value. -/
theorem c2_reload_synchronous_collection (env : Env) (s : ServiceState)
    (newCfg : Config) (s' : ServiceState) (res : ReloadResult)
    (h : reloadConfig env s newCfg = some (s', res)) (hsucc : res.success = true) :
    ∀ h' ∈ s'.metrics, ∀ v : ℚ, queryMetric env s' h'.spec = some v →
      h'.gauge = some (GVal.num v) ∧ GVal.num v ≠ GVal.nan ∧ h'.desc ∈ s'.registry := by
  rcases reloadConfig_success_inv env s newCfg s' res h hsucc with
    ⟨reg1, bst, hs2, h1, h2, h3, h4, hs', hres⟩
  have hmap := reloadCollect_some env _ _ _ h4
  subst hs'
  subst hmap
  intro h' hm v hv
  rcases List.mem_map.mp hm with ⟨h0, hh0, rfl⟩
  have hqeq : ∀ spec, queryMetric env
      { reloadSuccessState env s newCfg bst with
          metrics := List.map (collectAfter env (reloadSuccessState env s newCfg bst))
            bst.holders } spec =
      queryMetric env (reloadSuccessState env s newCfg bst) spec := fun _ => rfl
  rw [hqeq] at hv
  have hdesc : h0.desc ∈ bst.registry :=
    buildMetrics_ok_desc newCfg.metrics _ _ h3 (by intro x hx; cases hx) h0 hh0
  cases hq : queryMetric env (reloadSuccessState env s newCfg bst) h0.spec with
  | none =>
    rw [show collectAfter env (reloadSuccessState env s newCfg bst) h0 = h0 from by
      unfold collectAfter; rw [hq]] at hv
    rw [hv] at hq
    cases hq
  | some w =>
    have hca : collectAfter env (reloadSuccessState env s newCfg bst) h0 =
        { h0 with gauge := some (GVal.num w) } := by
      unfold collectAfter; rw [hq]
    rw [hca] at hv ⊢
    have hspec : ({ h0 with gauge := some (GVal.num w) } : MetricHolder).spec = h0.spec := rfl
    rw [hspec, hq] at hv
    cases hv
    exact ⟨rfl, by simp, hdesc⟩

/-- The metric added by the C2 witness reload. -/
def exSpecC2 : MetricSpec :=
  { name := "m2", help := "added", type := "", source := "mysql",
    query := "SELECT 2", labels := [], resultField := "",
    connection := "", buckets := [], objectives := [] }

/-- The new configuration of the C2 witness reload. -/
def exCfgC2 : Config :=
  { schedule := ⟨"1h"⟩, prometheus := ⟨"", 8080⟩,
    mysql := exMySQL, mysqlConnections := [("default", exMySQL)],
    redis := ⟨"", "", "", "", 0, false, false⟩, redisConnections := [],
    restapiConnections := [],
    iotdb := ⟨"", 0, "", "", 0, "", false, false, 0⟩,
    metrics := [exSpecC2] }

/-- The pre-reload state of the C2 witness: no metrics yet. -/
def exStateC2 : ServiceState :=
  { cfg := { exCfgC2 with metrics := [] }, mysql := [], redis := [], restapi := [],
    iotdb := none, metrics := [], registry := [errorCountDesc, lastRunDesc],
    errorCount := 0, lastRun := none }

/-- An environment whose MySQL backend answers 7 to every query. -/
def exEnvC2 : Env :=
  { mysqlOpenOK := fun _ => true, redisOpenOK := fun _ => true,
    iotdbOpenOK := fun _ => true, restapiOpenOK := fun _ => true,
    mysqlQuery := fun _ _ => some 7, redisQuery := fun _ _ => none,
    iotdbQuery := fun _ _ _ => none, restapiQuery := fun _ _ _ => none,
    now := 100 }

/-- Witness for C2: reloading an empty service to a configuration with one
metric returns success, and the added metric already carries the backend's
value 7 in the returned state. -/
theorem c2_reload_synchronous_collection_witness :
    ∃ s' res, reloadConfig exEnvC2 exStateC2 exCfgC2 = some (s', res) ∧
      res.success = true ∧
      ∀ h' ∈ s'.metrics, ∀ v : ℚ, queryMetric exEnvC2 s' h'.spec = some v →
        h'.gauge = some (GVal.num v) ∧ GVal.num v ≠ GVal.nan ∧ h'.desc ∈ s'.registry := by
  refine ⟨_, _, rfl, rfl, ?_⟩
  exact fun h' hm v hv =>
    c2_reload_synchronous_collection exEnvC2 exStateC2 exCfgC2 _ _ rfl rfl h' hm v hv

end Sql2Metrics

namespace Sql2Metrics

/-! ## C1: a registration failure during reload is not rolled back -/

/-- The state returned when the rebuild loop of `ReloadConfig` hits a
registration error: client maps already reconciled, the old instruments
already unregistered, the holder list cleared, and the partial registry of
the failed pass left in place. -/
def reloadRegErrState (env : Env) (s : ServiceState) (newCfg : Config)
    (bst : BuildSt) : ServiceState :=
  { s with
      mysql := (reloadClients env s.cfg newCfg s.mysql s.redis s.restapi s.iotdb).1,
      redis := (reloadClients env s.cfg newCfg s.mysql s.redis s.restapi s.iotdb).2.1,
      restapi := (reloadClients env s.cfg newCfg s.mysql s.redis s.restapi s.iotdb).2.2.1,
      iotdb := (reloadClients env s.cfg newCfg s.mysql s.redis s.restapi s.iotdb).2.2.2.1,
      registry := bst.registry,
      metrics := [] }

/-- C1 as amended: when registering one of the rebuilt instruments fails,
the reload fails as a whole with `Error` populated — but there is NO
rollback: every instrument registered earlier in this apply stays in the
registry, the holder list is left empty, and the pre-reload handle list is
not restored (the old instruments were already unregistered before the
rebuild). -/
theorem c1_reload_regerr_no_rollback (env : Env) (s : ServiceState) (newCfg : Config)
    (reg1 : List Desc) (msg : String) (bst : BuildSt)
    (h1 : unregisterRemoved s.registry (newCfg.metrics.map (fun m => m.name)) s.metrics =
      some reg1)
    (h2 : (reloadClients env s.cfg newCfg s.mysql s.redis s.restapi s.iotdb).2.2.2.2 = none)
    (h3 : buildMetrics ⟨[], [], [], unregisterAll reg1 s.metrics, []⟩ newCfg.metrics =
      .regErr msg bst) :
    reloadConfig env s newCfg =
      some (reloadRegErrState env s newCfg bst, ReloadResult.failWith msg) ∧
    (ReloadResult.failWith msg).success = false ∧
    (ReloadResult.failWith msg).error = msg ∧ msg ≠ "" ∧
    (reloadRegErrState env s newCfg bst).metrics = [] ∧
    (∀ h0 ∈ bst.holders, h0.desc ∈ (reloadRegErrState env s newCfg bst).registry) := by
  rcases buildMetrics_regErr_inv newCfg.metrics _ msg bst h3 (by intro x hx; cases hx) with
    ⟨hdesc, hmsg⟩
  refine ⟨?_, rfl, rfl, hmsg, rfl, hdesc⟩
  simp only [reloadConfig, h1, h2, h3]
  rfl

/-- The pre-reload metric of the C1 scenario. -/
def exSpecOld : MetricSpec :=
  { name := "old_metric", help := "old", type := "gauge", source := "mysql",
    query := "SELECT 0", labels := [], resultField := "",
    connection := "", buckets := [], objectives := [] }

/-- The pre-reload holder of the C1 scenario. -/
def exHolderOld : MetricHolder :=
  { spec := exSpecOld, desc := mkDesc exSpecOld, gauge := some (GVal.num 3) }

/-- First new metric of the C1 reload: name `x` with label key `a`. -/
def exSpecX1 : MetricSpec :=
  { name := "x", help := "hx", type := "gauge", source := "mysql",
    query := "SELECT 1", labels := [("a", "1")], resultField := "",
    connection := "", buckets := [], objectives := [] }

/-- Second new metric of the C1 reload: same name `x`, label key `b` — the
registry refuses the second registration (inconsistent label dimensions
for one name). -/
def exSpecX2 : MetricSpec :=
  { name := "x", help := "hx", type := "gauge", source := "mysql",
    query := "SELECT 2", labels := [("b", "2")], resultField := "",
    connection := "", buckets := [], objectives := [] }

/-- The pre-reload configuration of the C1 scenario. -/
def exCfgC1old : Config :=
  { schedule := ⟨"1h"⟩, prometheus := ⟨"", 8080⟩,
    mysql := exMySQL, mysqlConnections := [("default", exMySQL)],
    redis := ⟨"", "", "", "", 0, false, false⟩, redisConnections := [],
    restapiConnections := [],
    iotdb := ⟨"", 0, "", "", 0, "", false, false, 0⟩,
    metrics := [exSpecOld] }

/-- The new configuration of the C1 reload. -/
def exCfgC1new : Config :=
  { exCfgC1old with metrics := [exSpecX1, exSpecX2] }

/-- The pre-reload state of the C1 scenario. -/
def exStateC1 : ServiceState :=
  { cfg := exCfgC1old, mysql := [("default", exMySQL)], redis := [], restapi := [],
    iotdb := none, metrics := [exHolderOld],
    registry := [mkDesc exSpecOld, errorCountDesc, lastRunDesc],
    errorCount := 0, lastRun := none }

/-- An environment where every open succeeds and every query fails. -/
def exEnvC1 : Env :=
  { mysqlOpenOK := fun _ => true, redisOpenOK := fun _ => true,
    iotdbOpenOK := fun _ => true, restapiOpenOK := fun _ => true,
    mysqlQuery := fun _ _ => none, redisQuery := fun _ _ => none,
    iotdbQuery := fun _ _ _ => none, restapiQuery := fun _ _ _ => none,
    now := 100 }

/-- Counterexample to C1: the reload fails on the second registration, yet
the first new instrument stays registered, the handle list is empty, and
the pre-reload instrument is gone from the registry — the pre-reload state
is NOT active afterwards and nothing was rolled back. -/
theorem c1_counterexample :
    ∃ s' res, reloadConfig exEnvC1 exStateC1 exCfgC1new = some (s', res) ∧
      res.success = false ∧ res.error ≠ "" ∧
      s'.metrics = [] ∧ exStateC1.metrics ≠ [] ∧
      mkDesc exSpecX1 ∈ s'.registry ∧ mkDesc exSpecOld ∉ s'.registry := by
  refine ⟨_, _, rfl, rfl, by decide, rfl, by decide, by decide, by decide⟩

/-- Witness for the amended C1 at the concrete C1 scenario. -/
theorem c1_reload_regerr_no_rollback_witness :
    (reloadConfig exEnvC1 exStateC1 exCfgC1new =
      some (reloadRegErrState exEnvC1 exStateC1 exCfgC1new
              ⟨[("x", "hx")], [labelKey exSpecX1, labelKey exSpecX2], [⟨exSpecX1, mkDesc exSpecX1, some (GVal.num 0)⟩],
               [errorCountDesc, lastRunDesc, mkDesc exSpecX1], ["x"]⟩,
            ReloadResult.failWith "register metric x failed: inconsistent descriptor")) ∧
    (ReloadResult.failWith "register metric x failed: inconsistent descriptor").success = false ∧
    (ReloadResult.failWith "register metric x failed: inconsistent descriptor").error =
      "register metric x failed: inconsistent descriptor" ∧
    "register metric x failed: inconsistent descriptor" ≠ "" ∧
    (reloadRegErrState exEnvC1 exStateC1 exCfgC1new
      ⟨[("x", "hx")], [labelKey exSpecX1, labelKey exSpecX2], [⟨exSpecX1, mkDesc exSpecX1, some (GVal.num 0)⟩],
       [errorCountDesc, lastRunDesc, mkDesc exSpecX1], ["x"]⟩).metrics = [] ∧
    (∀ h0 ∈ [(⟨exSpecX1, mkDesc exSpecX1, some (GVal.num 0)⟩ : MetricHolder)],
      h0.desc ∈ (reloadRegErrState exEnvC1 exStateC1 exCfgC1new
        ⟨[("x", "hx")], [labelKey exSpecX1, labelKey exSpecX2], [⟨exSpecX1, mkDesc exSpecX1, some (GVal.num 0)⟩],
         [errorCountDesc, lastRunDesc, mkDesc exSpecX1], ["x"]⟩).registry) :=
  c1_reload_regerr_no_rollback exEnvC1 exStateC1 exCfgC1new
    [errorCountDesc, lastRunDesc] "register metric x failed: inconsistent descriptor"
    ⟨[("x", "hx")], [labelKey exSpecX1, labelKey exSpecX2], [⟨exSpecX1, mkDesc exSpecX1, some (GVal.num 0)⟩],
     [errorCountDesc, lastRunDesc, mkDesc exSpecX1], ["x"]⟩
    rfl rfl rfl

end Sql2Metrics

namespace Sql2Metrics

/-! ## C3: open failures during reload — non-fatal except for RestAPI -/

theorem lookup_filter_none {α β : Type} [BEq α] (p : α × β → Bool) (a : α) :
    ∀ l : List (α × β), l.lookup a = none → (l.filter p).lookup a = none := by
  intro l
  induction l with
  | nil => intro _; simp
  | cons hd tl ih =>
    obtain ⟨k, b⟩ := hd
    intro h
    simp only [List.lookup] at h
    cases hba : (a == k) with
    | true => rw [hba] at h; cases h
    | false =>
      rw [hba] at h
      simp only [List.filter]
      cases hp : p (k, b) with
      | true =>
        simp only [List.lookup, hba]
        exact ih h
      | false => exact ih h

theorem dropIfChanged_lookup_none {α : Type} (equal : α → α → Bool) (oldc : Option α)
    (newC : α) (n m : String) (clients : List (String × α))
    (h : clients.lookup m = none) :
    (dropIfChanged equal oldc newC n clients).lookup m = none := by
  unfold dropIfChanged
  split
  · exact h
  · split
    · exact lookup_filter_none _ _ _ h
    · split
      · exact h
      · exact lookup_filter_none _ _ _ h

theorem openIfAbsent_lookup_none {α : Type} (openOK : α → Bool) (n : String) (c : α)
    (m : String) (clients : List (String × α)) (h : clients.lookup m = none)
    (hcase : m ≠ n ∨ openOK c = false) :
    (openIfAbsent openOK n c clients).lookup m = none := by
  unfold openIfAbsent
  split
  · exact h
  · split
    · rcases hcase with hne | hof
      · rw [lookup_append, h]
        have hbeq : (m == n) = false := beq_eq_false_iff_ne.mpr hne
        simp [List.lookup, hbeq]
      · rename_i hopen
        rw [hof] at hopen
        cases hopen
    · exact h

theorem ensureMySQL_no_error (env : Env) (oldCfg newCfg : Config) :
    ∀ (needed : List String) (clients : List (String × MySQLConfig)),
      (∀ n ∈ needed, (newCfg.mysqlConfigFor n).isSome) →
      (ensureMySQL env oldCfg newCfg needed clients).2 = none := by
  intro needed
  induction needed with
  | nil => intro clients _; rfl
  | cons n rest ih =>
    intro clients hall
    have hn := hall n (List.mem_cons_self n rest)
    cases hc : newCfg.mysqlConfigFor n with
    | none => rw [hc] at hn; cases hn
    | some c =>
      simp only [ensureMySQL, hc]
      exact ih _ (fun m hm => hall m (List.mem_cons_of_mem n hm))

theorem ensureMySQL_open_failure_empty (env : Env) (oldCfg newCfg : Config)
    (n : String) (c : MySQLConfig)
    (hc : newCfg.mysqlConfigFor n = some c) (hopen : env.mysqlOpenOK c = false) :
    ∀ (needed : List String) (clients : List (String × MySQLConfig)),
      clients.lookup n = none →
      ((ensureMySQL env oldCfg newCfg needed clients).1).lookup n = none := by
  intro needed
  induction needed with
  | nil => intro clients h; exact h
  | cons m rest ih =>
    intro clients h
    cases hcm : newCfg.mysqlConfigFor m with
    | none => simp only [ensureMySQL, hcm]; exact h
    | some cm =>
      simp only [ensureMySQL, hcm]
      apply ih
      apply openIfAbsent_lookup_none
      · exact dropIfChanged_lookup_none _ _ _ _ _ _ h
      · by_cases hmn : n = m
        · subst hmn
          rw [hc] at hcm
          cases hcm
          exact Or.inr hopen
        · exact Or.inl hmn

theorem ensureRedis_no_error (env : Env) (oldCfg newCfg : Config) :
    ∀ (needed : List String) (clients : List (String × RedisConfig)),
      (∀ n ∈ needed, (newCfg.redisConfigFor n).isSome) →
      (ensureRedis env oldCfg newCfg needed clients).2 = none := by
  intro needed
  induction needed with
  | nil => intro clients _; rfl
  | cons n rest ih =>
    intro clients hall
    have hn := hall n (List.mem_cons_self n rest)
    cases hc : newCfg.redisConfigFor n with
    | none => rw [hc] at hn; cases hn
    | some c =>
      simp only [ensureRedis, hc]
      exact ih _ (fun m hm => hall m (List.mem_cons_of_mem n hm))

theorem ensureRedis_open_failure_empty (env : Env) (oldCfg newCfg : Config)
    (n : String) (c : RedisConfig)
    (hc : newCfg.redisConfigFor n = some c) (hopen : env.redisOpenOK c = false) :
    ∀ (needed : List String) (clients : List (String × RedisConfig)),
      clients.lookup n = none →
      ((ensureRedis env oldCfg newCfg needed clients).1).lookup n = none := by
  intro needed
  induction needed with
  | nil => intro clients h; exact h
  | cons m rest ih =>
    intro clients h
    cases hcm : newCfg.redisConfigFor m with
    | none => simp only [ensureRedis, hcm]; exact h
    | some cm =>
      simp only [ensureRedis, hcm]
      apply ih
      apply openIfAbsent_lookup_none
      · exact dropIfChanged_lookup_none _ _ _ _ _ _ h
      · by_cases hmn : n = m
        · subst hmn
          rw [hc] at hcm
          cases hcm
          exact Or.inr hopen
        · exact Or.inl hmn

theorem ensureRestAPI_open_failure_fatal (env : Env) (oldCfg newCfg : Config)
    (n : String) (c : RestAPIConfig)
    (hc : newCfg.restapiConfigFor n = some c) (hopen : env.restapiOpenOK c = false) :
    ∀ (needed : List String) (clients : List (String × RestAPIConfig)),
      n ∈ needed → clients.lookup n = none →
      (ensureRestAPI env oldCfg newCfg needed clients).2 ≠ none := by
  intro needed
  induction needed with
  | nil => intro clients hmem; cases hmem
  | cons m rest ih =>
    intro clients hmem h
    by_cases hmn : m = n
    · subst hmn
      have hdrop : (dropIfChanged restapiConfigEqual (oldCfg.restapiConfigFor m) c m
          clients).lookup m = none := by
        unfold dropIfChanged
        rw [h]
        exact h
      simp only [ensureRestAPI, hc, hdrop, Option.isSome_none, Bool.false_eq_true,
        if_false, hopen]
      simp
    · have hmem' : n ∈ rest := by
        rcases List.mem_cons.mp hmem with h' | h'
        · exact absurd h'.symm hmn
        · exact h'
      cases hcm : newCfg.restapiConfigFor m with
      | none => simp [ensureRestAPI, hcm]
      | some cm =>
        have hd : (dropIfChanged restapiConfigEqual (oldCfg.restapiConfigFor m) cm m
            clients).lookup n = none :=
          dropIfChanged_lookup_none _ _ _ _ _ _ h
        simp only [ensureRestAPI, hcm]
        split
        · exact ih _ hmem' hd
        · split
          · apply ih _ hmem'
            rw [lookup_append, hd]
            have hbeq : (n == m) = false := beq_eq_false_iff_ne.mpr (fun he => hmn he.symm)
            simp [List.lookup, hbeq]
          · simp

theorem reconcileIoTDB_open_failure (env : Env) (newCfg : Config) (needs : Bool)
    (hopen : env.iotdbOpenOK newCfg.iotdb = false) :
    reconcileIoTDB env needs none newCfg = none := by
  unfold reconcileIoTDB
  cases needs <;> simp [hopen]

/-- The state returned when the client-reconciliation phase of
`ReloadConfig` stops with an error. -/
def reloadClientErrState (env : Env) (s : ServiceState) (newCfg : Config)
    (reg1 : List Desc) : ServiceState :=
  { s with
      registry := reg1,
      mysql := (reloadClients env s.cfg newCfg s.mysql s.redis s.restapi s.iotdb).1,
      redis := (reloadClients env s.cfg newCfg s.mysql s.redis s.restapi s.iotdb).2.1,
      restapi := (reloadClients env s.cfg newCfg s.mysql s.redis s.restapi s.iotdb).2.2.1,
      iotdb := (reloadClients env s.cfg newCfg s.mysql s.redis s.restapi s.iotdb).2.2.2.1 }

theorem reloadConfig_clientErr_path (env : Env) (s : ServiceState) (newCfg : Config)
    (reg1 : List Desc) (e : String)
    (h1 : unregisterRemoved s.registry (newCfg.metrics.map (fun m => m.name)) s.metrics =
      some reg1)
    (h2 : (reloadClients env s.cfg newCfg s.mysql s.redis s.restapi s.iotdb).2.2.2.2 =
      some e) :
    reloadConfig env s newCfg =
      some (reloadClientErrState env s newCfg reg1, ReloadResult.failWith e) := by
  simp only [reloadConfig, h1, h2]
  rfl

end Sql2Metrics

namespace Sql2Metrics

/-- C3 as amended: during `ReloadConfig` a failure to OPEN a backend
client is non-fatal for the relational (MySQL), key-value (Redis) and
time-series (IoTDB) kinds — the ensure loop never fails when every needed
connection is configured, and a slot whose open failed is simply left
empty, so dependent metrics fail only at collection time.  For the HTTP
(RestAPI) kind, however, an open failure IS fatal: its ensure loop stops
with an error and the reload returns a failed result. -/
theorem c3_open_failures (env : Env) (oldCfg newCfg : Config) :
    (∀ (needed : List String) (clients : List (String × MySQLConfig)),
      (∀ n ∈ needed, (newCfg.mysqlConfigFor n).isSome) →
      (ensureMySQL env oldCfg newCfg needed clients).2 = none) ∧
    (∀ (n : String) (c : MySQLConfig), newCfg.mysqlConfigFor n = some c →
      env.mysqlOpenOK c = false →
      ∀ (needed : List String) (clients : List (String × MySQLConfig)),
        clients.lookup n = none →
        ((ensureMySQL env oldCfg newCfg needed clients).1).lookup n = none) ∧
    (∀ (needed : List String) (clients : List (String × RedisConfig)),
      (∀ n ∈ needed, (newCfg.redisConfigFor n).isSome) →
      (ensureRedis env oldCfg newCfg needed clients).2 = none) ∧
    (∀ (n : String) (c : RedisConfig), newCfg.redisConfigFor n = some c →
      env.redisOpenOK c = false →
      ∀ (needed : List String) (clients : List (String × RedisConfig)),
        clients.lookup n = none →
        ((ensureRedis env oldCfg newCfg needed clients).1).lookup n = none) ∧
    (∀ needs : Bool, env.iotdbOpenOK newCfg.iotdb = false →
      reconcileIoTDB env needs none newCfg = none) ∧
    (∀ (n : String) (c : RestAPIConfig), newCfg.restapiConfigFor n = some c →
      env.restapiOpenOK c = false →
      ∀ (needed : List String) (clients : List (String × RestAPIConfig)),
        n ∈ needed → clients.lookup n = none →
        (ensureRestAPI env oldCfg newCfg needed clients).2 ≠ none) ∧
    (∀ (s : ServiceState) (reg1 : List Desc) (e : String),
      s.cfg = oldCfg →
      unregisterRemoved s.registry (newCfg.metrics.map (fun m => m.name)) s.metrics =
        some reg1 →
      (reloadClients env s.cfg newCfg s.mysql s.redis s.restapi s.iotdb).2.2.2.2 =
        some e →
      reloadConfig env s newCfg =
        some (reloadClientErrState env s newCfg reg1, ReloadResult.failWith e) ∧
      (ReloadResult.failWith e).success = false) := by
  refine ⟨ensureMySQL_no_error env oldCfg newCfg,
    fun n c hc hopen => ensureMySQL_open_failure_empty env oldCfg newCfg n c hc hopen,
    ensureRedis_no_error env oldCfg newCfg,
    fun n c hc hopen => ensureRedis_open_failure_empty env oldCfg newCfg n c hc hopen,
    fun needs hopen => reconcileIoTDB_open_failure env newCfg needs hopen,
    fun n c hc hopen => ensureRestAPI_open_failure_fatal env oldCfg newCfg n c hc hopen,
    fun s reg1 e _ h1 h2 => ⟨reloadConfig_clientErr_path env s newCfg reg1 e h1 h2, rfl⟩⟩

/-- A RestAPI connection configuration. -/
def exRestCfg : RestAPIConfig :=
  { baseURL := "http://e", timeout := "", headers := [], tls := ⟨false⟩,
    retry := ⟨0, ""⟩ }

/-- A metric using the HTTP backend. -/
def exSpecRest : MetricSpec :=
  { name := "r1", help := "rest", type := "gauge", source := "restapi",
    query := "", labels := [], resultField := "f",
    connection := "", buckets := [], objectives := [] }

/-- The new configuration of the C3 scenario: it adds an HTTP metric. -/
def exCfgC3new : Config :=
  { schedule := ⟨"1h"⟩, prometheus := ⟨"", 8080⟩,
    mysql := exMySQL, mysqlConnections := [],
    redis := ⟨"", "", "", "", 0, false, false⟩, redisConnections := [],
    restapiConnections := [("default", exRestCfg)],
    iotdb := ⟨"", 0, "", "", 0, "", false, false, 0⟩,
    metrics := [exSpecRest] }

/-- The pre-reload state of the C3 scenario: no metrics, no clients. -/
def exStateC3 : ServiceState :=
  { cfg := { exCfgC3new with metrics := [] }, mysql := [], redis := [], restapi := [],
    iotdb := none, metrics := [], registry := [errorCountDesc, lastRunDesc],
    errorCount := 0, lastRun := none }

/-- An environment where opening a RestAPI client fails and everything
else succeeds. -/
def exEnvC3 : Env :=
  { mysqlOpenOK := fun _ => true, redisOpenOK := fun _ => true,
    iotdbOpenOK := fun _ => true, restapiOpenOK := fun _ => false,
    mysqlQuery := fun _ _ => none, redisQuery := fun _ _ => none,
    iotdbQuery := fun _ _ _ => none, restapiQuery := fun _ _ _ => none,
    now := 100 }

/-- Counterexample to C3: with an HTTP (RestAPI) backend whose client open
fails, the reload does NOT return `Success = true` — it fails with `Error`
populated, although the claim says an open failure is non-fatal for every
backend kind. -/
theorem c3_counterexample :
    ∃ s' res, reloadConfig exEnvC3 exStateC3 exCfgC3new = some (s', res) ∧
      res.success = false ∧ res.error ≠ "" := by
  refine ⟨_, _, rfl, rfl, by decide⟩

/-- An environment where opening a MySQL or IoTDB client fails and
everything else succeeds. -/
def exEnvC3b : Env :=
  { exEnvC3 with
      mysqlOpenOK := fun _ => false,
      iotdbOpenOK := fun _ => false,
      restapiOpenOK := fun _ => true }

/-- A metric using the MySQL backend in the C3 witness. -/
def exSpecC3b : MetricSpec :=
  { name := "q1", help := "rest", type := "gauge", source := "mysql",
    query := "SELECT 1", labels := [], resultField := "",
    connection := "", buckets := [], objectives := [] }

/-- A configuration needing one MySQL connection. -/
def exCfgC3b : Config :=
  { exCfgC3new with
      restapiConnections := [],
      mysqlConnections := [("default", exMySQL)],
      metrics := [exSpecC3b] }

/-- Witness for the amended C3: the MySQL and Redis ensure loops succeed
with the failed slot left empty, the IoTDB slot stays empty, the RestAPI
ensure loop fails, and the reload of the C3 scenario propagates that
failure into a failed result. -/
theorem c3_open_failures_witness :
    (ensureMySQL exEnvC3b exStateC3.cfg exCfgC3b ["default"] []).2 = none ∧
    ((ensureMySQL exEnvC3b exStateC3.cfg exCfgC3b ["default"] []).1).lookup "default" =
      none ∧
    (ensureRedis exEnvC3b exStateC3.cfg exCfgC3b [] []).2 = none ∧
    reconcileIoTDB exEnvC3b true none exCfgC3b = none ∧
    (ensureRestAPI exEnvC3 exStateC3.cfg exCfgC3new ["default"] []).2 ≠ none ∧
    reloadConfig exEnvC3 exStateC3 exCfgC3new =
      some (reloadClientErrState exEnvC3 exStateC3 exCfgC3new
        [errorCountDesc, lastRunDesc],
        ReloadResult.failWith "init RestAPI connection default failed") ∧
    (ReloadResult.failWith "init RestAPI connection default failed").success = false := by
  have h := c3_open_failures exEnvC3b exStateC3.cfg exCfgC3b
  have h' := c3_open_failures exEnvC3 exStateC3.cfg exCfgC3new
  refine ⟨h.1 ["default"] [] (by decide), ?_, h.2.2.1 [] [] (by decide),
    h.2.2.2.2.1 true rfl, h'.2.2.2.2.2.1 "default" exRestCfg rfl rfl ["default"] []
      (by decide) rfl, ?_, rfl⟩
  · exact h.2.1 "default" exMySQL rfl rfl ["default"] [] rfl
  · exact (h'.2.2.2.2.2.2 exStateC3 [errorCountDesc, lastRunDesc]
      "init RestAPI connection default failed" rfl rfl rfl).1

end Sql2Metrics

namespace Sql2Metrics

/-! ## C5: reloading with an identical configuration is not a no-op -/

/-- C5 as amended: a reload whose new configuration is the current one
returns success with an empty `removed` list, and runs the synchronous
collection round — but it is NOT observationally a no-op: every instrument
is unregistered and a fresh one registered in its place, so a gauge whose
query fails during the round reports the fresh instrument's value 0
instead of its pre-reload value. -/
theorem c5_same_config_reload (env : Env) (s : ServiceState)
    (s' : ServiceState) (res : ReloadResult)
    (h : reloadConfig env s s.cfg = some (s', res)) (hsucc : res.success = true)
    (hnames : ∀ h0 ∈ s.metrics, h0.spec.name ∈ s.cfg.metrics.map (fun m => m.name)) :
    res.removed = [] ∧
    (∀ h' ∈ s'.metrics,
      (queryMetric env s' h'.spec = none →
        h'.gauge = some (GVal.num 0) ∨ h'.gauge = none) ∧
      (∀ v : ℚ, queryMetric env s' h'.spec = some v →
        h'.gauge = some (GVal.num v))) := by
  rcases reloadConfig_success_inv env s s.cfg s' res h hsucc with
    ⟨reg1, bst, hs2, h1, h2, h3, h4, hs', hres⟩
  constructor
  · rw [hres]
    show removedNames s.metrics s.cfg = []
    unfold removedNames
    have hfil : (s.metrics.map (fun h => h.spec.name)).filter
        (fun n => !(s.cfg.metrics.any (fun m => m.name = n))) = [] := by
      apply List.filter_eq_nil_iff.mpr
      intro a ha
      rcases List.mem_map.mp ha with ⟨h0, hh0, rfl⟩
      have := hnames h0 hh0
      rcases List.mem_map.mp this with ⟨m, hm, hname⟩
      have hany : s.cfg.metrics.any (fun m => m.name = h0.spec.name) = true :=
        List.any_eq_true.mpr ⟨m, hm, by simp [hname]⟩
      simp [hany]
    rw [hfil]
    rfl
  · have hmap := reloadCollect_some env _ _ _ h4
    subst hs'
    subst hmap
    intro h' hm
    rcases List.mem_map.mp hm with ⟨h0, hh0, rfl⟩
    have hfresh : h0.gauge = some (GVal.num 0) ∨ h0.gauge = none :=
      buildMetrics_ok_fresh s.cfg.metrics _ _ h3 (by intro x hx; cases hx) h0 hh0
    have hqeq : ∀ spec, queryMetric env
        { reloadSuccessState env s s.cfg bst with
            metrics := List.map (collectAfter env (reloadSuccessState env s s.cfg bst))
              bst.holders } spec =
        queryMetric env (reloadSuccessState env s s.cfg bst) spec := fun _ => rfl
    cases hq : queryMetric env (reloadSuccessState env s s.cfg bst) h0.spec with
    | none =>
      have hca : collectAfter env (reloadSuccessState env s s.cfg bst) h0 = h0 := by
        unfold collectAfter; rw [hq]
      rw [hca]
      refine ⟨fun _ => hfresh, fun v hv => ?_⟩
      rw [hqeq, hq] at hv
      cases hv
    | some w =>
      have hca : collectAfter env (reloadSuccessState env s s.cfg bst) h0 =
          { h0 with gauge := some (GVal.num w) } := by
        unfold collectAfter; rw [hq]
      rw [hca]
      constructor
      · intro hv
        rw [hqeq] at hv
        have : ({ h0 with gauge := some (GVal.num w) } : MetricHolder).spec = h0.spec := rfl
        rw [this, hq] at hv
        cases hv
      · intro v hv
        rw [hqeq] at hv
        have hsp : ({ h0 with gauge := some (GVal.num w) } : MetricHolder).spec = h0.spec := rfl
        rw [hsp, hq] at hv
        cases hv
        rfl

/-- The metric of the C5 scenario. -/
def exSpecC5 : MetricSpec :=
  { name := "m5", help := "h5", type := "gauge", source := "mysql",
    query := "SELECT 5", labels := [], resultField := "",
    connection := "", buckets := [], objectives := [] }

/-- The configuration of the C5 scenario. -/
def exCfgC5 : Config :=
  { schedule := ⟨"1h"⟩, prometheus := ⟨"", 8080⟩,
    mysql := exMySQL, mysqlConnections := [("default", exMySQL)],
    redis := ⟨"", "", "", "", 0, false, false⟩, redisConnections := [],
    restapiConnections := [],
    iotdb := ⟨"", 0, "", "", 0, "", false, false, 0⟩,
    metrics := [exSpecC5] }

/-- The pre-reload state of the C5 scenario: its gauge carries the value
42 from an earlier collection round. -/
def exStateC5 : ServiceState :=
  { cfg := exCfgC5, mysql := [("default", exMySQL)], redis := [], restapi := [],
    iotdb := none,
    metrics := [{ spec := exSpecC5, desc := mkDesc exSpecC5,
                  gauge := some (GVal.num 42) }],
    registry := [mkDesc exSpecC5, errorCountDesc, lastRunDesc],
    errorCount := 0, lastRun := none }

/-- An environment where every open succeeds and every query now fails
(the backend became unreachable after the last round). -/
def exEnvC5 : Env :=
  { mysqlOpenOK := fun _ => true, redisOpenOK := fun _ => true,
    iotdbOpenOK := fun _ => true, restapiOpenOK := fun _ => true,
    mysqlQuery := fun _ _ => none, redisQuery := fun _ _ => none,
    iotdbQuery := fun _ _ _ => none, restapiQuery := fun _ _ _ => none,
    now := 100 }

/-- Counterexample to C5: reloading with a configuration structurally
equal to the current one succeeds, but the instrument holding 42 is
replaced by a freshly registered instrument: since the query now fails,
the next scrape shows 0, not 42 — the reload was not a no-op and the
instrument WAS unregistered and reregistered. -/
theorem c5_counterexample :
    exStateC5.cfg = exCfgC5 ∧
    exStateC5.metrics.map (fun h => h.gauge) = [some (GVal.num 42)] ∧
    ∃ s' res, reloadConfig exEnvC5 exStateC5 exCfgC5 = some (s', res) ∧
      res.success = true ∧
      s'.metrics.map (fun h => h.gauge) = [some (GVal.num 0)] := by
  refine ⟨rfl, rfl, _, _, rfl, rfl, rfl⟩

/-- Witness for the amended C5 at the concrete C5 scenario. -/
theorem c5_same_config_reload_witness :
    ∃ s' res, reloadConfig exEnvC5 exStateC5 exStateC5.cfg = some (s', res) ∧
      res.success = true ∧ res.removed = [] ∧
      (∀ h' ∈ s'.metrics,
        (queryMetric exEnvC5 s' h'.spec = none →
          h'.gauge = some (GVal.num 0) ∨ h'.gauge = none) ∧
        (∀ v : ℚ, queryMetric exEnvC5 s' h'.spec = some v →
          h'.gauge = some (GVal.num v))) := by
  refine ⟨_, _, rfl, rfl, ?_, ?_⟩
  · exact (c5_same_config_reload exEnvC5 exStateC5 _ _ rfl rfl (by decide)).1
  · exact (c5_same_config_reload exEnvC5 exStateC5 _ _ rfl rfl (by decide)).2

end Sql2Metrics

namespace Sql2Metrics

/-! ## C6: help stability across reachable states -/

/-- The first-seen help for a name: the help of the first spec in the list
carrying that name among the specs that are not skipped by the
duplicate-key check (`seen` holds the label keys already taken). -/
def firstSeenHelp (specs : List MetricSpec) (seen : List String) (n : String) :
    Option String :=
  match specs with
  | [] => none
  | m :: rest =>
    if seen.contains (labelKey m) then firstSeenHelp rest seen n
    else if m.name = n then some m.help
    else firstSeenHelp rest (seen ++ [labelKey m]) n

/-- Shape of a non-failing registration step: either the spec is skipped,
or its key is recorded and the holder is appended with the help stabilized
to the first-seen one. -/
theorem buildStep_proceed_shape (st : BuildSt) (spec : MetricSpec) (st2 : BuildSt)
    (h : buildStep st spec = .proceed st2) :
    (st.registered.contains (labelKey spec) = true ∧ st2 = st) ∨
    (st.registered.contains (labelKey spec) = false ∧
     st2.registered = st.registered ++ [labelKey spec] ∧
     ((∃ hh d g, st.helpMap.lookup spec.name = some hh ∧
        st2.helpMap = st.helpMap ∧
        st2.holders = st.holders ++ [⟨{ spec with help := hh }, d, g⟩]) ∨
      (∃ d g, st.helpMap.lookup spec.name = none ∧
        st2.helpMap = st.helpMap ++ [(spec.name, spec.help)] ∧
        st2.holders = st.holders ++ [⟨spec, d, g⟩]))) := by
  unfold buildStep at h
  split at h
  · rename_i hcon
    cases h
    exact Or.inl ⟨hcon, rfl⟩
  · rename_i hcon
    cases hmk : mkCollector (stabilizeHelpSpec (markKey st spec) spec) with
    | none => simp only [hmk] at h; cases h
    | some dg =>
      obtain ⟨d, g⟩ := dg
      simp only [hmk] at h
      cases hreg : registerDesc (stabilizeHelpSt (markKey st spec) spec).registry d with
      | error msg' => simp only [hreg] at h; cases h
      | ok reg =>
        simp only [hreg] at h
        cases h
        refine Or.inr ⟨by simpa using hcon, by simp [markKey], ?_⟩
        cases hl : st.helpMap.lookup spec.name with
        | some hh =>
          refine Or.inl ⟨hh, d, g, by simp [hl], ?_, ?_⟩
          · simp [stabilizeHelpSt, markKey, hl]
          · simp [stabilizeHelpSt, stabilizeHelpSpec, markKey, hl]
        | none =>
          refine Or.inr ⟨d, g, by simp [hl], ?_, ?_⟩
          · simp [stabilizeHelpSt, markKey, hl]
          · simp [stabilizeHelpSt, stabilizeHelpSpec, markKey, hl]

theorem lookup_append_some {α β : Type} [BEq α] (l1 l2 : List (α × β)) (a : α) (b : β)
    (h : l1.lookup a = some b) : (l1 ++ l2).lookup a = some b := by
  rw [lookup_append, h]

theorem lookup_append_none {α β : Type} [BEq α] (l1 l2 : List (α × β)) (a : α)
    (h1 : l1.lookup a = none) (h2 : l2.lookup a = none) :
    (l1 ++ l2).lookup a = none := by
  rw [lookup_append, h1, h2]

/-- Lemma A: helpMap entries persist through the registration loop. -/
theorem buildMetrics_helpMap_mono (specs : List MetricSpec) :
    ∀ st bst, buildMetrics st specs = .ok bst →
      ∀ n hh, st.helpMap.lookup n = some hh → bst.helpMap.lookup n = some hh := by
  induction specs with
  | nil => intro st bst h n hh hl; cases h; exact hl
  | cons spec rest ih =>
    intro st bst h n hh hl
    rw [buildMetrics] at h
    cases hstep : buildStep st spec with
    | proceed st2 =>
      rw [hstep] at h
      rcases buildStep_proceed_shape st spec st2 hstep with ⟨_, rfl⟩ | ⟨_, _, hcase⟩
      · exact ih _ _ h n hh hl
      · rcases hcase with ⟨hh', d, g, _, hmap, _⟩ | ⟨d, g, _, hmap, _⟩
        · exact ih _ _ h n hh (by rw [hmap]; exact hl)
        · refine ih _ _ h n hh ?_
          rw [hmap]
          exact lookup_append_some _ _ _ _ hl
    | regErrStep msg st2 => rw [hstep] at h; cases h
    | badTypeStep st2 => rw [hstep] at h; cases h

/-- Lemma B: every holder's help agrees with the helpMap entry for its
name. -/
theorem buildMetrics_holders_helpMap (specs : List MetricSpec) :
    ∀ st bst, buildMetrics st specs = .ok bst →
      (∀ h0 ∈ st.holders, st.helpMap.lookup h0.spec.name = some h0.spec.help) →
      ∀ h0 ∈ bst.holders, bst.helpMap.lookup h0.spec.name = some h0.spec.help := by
  induction specs with
  | nil => intro st bst h hinv; cases h; exact hinv
  | cons spec rest ih =>
    intro st bst h hinv
    rw [buildMetrics] at h
    cases hstep : buildStep st spec with
    | proceed st2 =>
      rw [hstep] at h
      rcases buildStep_proceed_shape st spec st2 hstep with ⟨_, rfl⟩ | ⟨_, _, hcase⟩
      · exact ih _ _ h hinv
      · refine ih _ _ h ?_
        rcases hcase with ⟨hh', d, g, hl, hmap, hhold⟩ | ⟨d, g, hl, hmap, hhold⟩
        · intro h0 hm
          rw [hhold] at hm
          rcases List.mem_append.mp hm with hold | hnew
          · rw [hmap]; exact hinv h0 hold
          · rcases List.mem_singleton.mp hnew with rfl
            rw [hmap]
            exact hl
        · intro h0 hm
          rw [hhold] at hm
          rcases List.mem_append.mp hm with hold | hnew
          · rw [hmap]
            exact lookup_append_some _ _ _ _ (hinv h0 hold)
          · rcases List.mem_singleton.mp hnew with rfl
            rw [hmap]
            rw [lookup_append, hl]
            simp [List.lookup]
    | regErrStep msg st2 => rw [hstep] at h; cases h
    | badTypeStep st2 => rw [hstep] at h; cases h

/-- Lemma C: for a name without a pre-existing entry, the final helpMap
entry is the first-seen help relative to the already-taken keys. -/
theorem buildMetrics_helpMap_firstSeen (specs : List MetricSpec) :
    ∀ st bst, buildMetrics st specs = .ok bst →
      ∀ n, st.helpMap.lookup n = none →
        bst.helpMap.lookup n = firstSeenHelp specs st.registered n := by
  induction specs with
  | nil =>
    intro st bst h n hl
    cases h
    rw [firstSeenHelp]
    exact hl
  | cons spec rest ih =>
    intro st bst h n hl
    rw [buildMetrics] at h
    rw [firstSeenHelp]
    cases hstep : buildStep st spec with
    | proceed st2 =>
      rw [hstep] at h
      rcases buildStep_proceed_shape st spec st2 hstep with ⟨hcon, rfl⟩ | ⟨hcon, hregd, hcase⟩
      · rw [hcon]
        simp only [if_true]
        exact ih _ _ h n hl
      · rw [hcon]
        simp only [Bool.false_eq_true, if_false]
        rcases hcase with ⟨hh', d, g, hln, hmap, _⟩ | ⟨d, g, hln, hmap, _⟩
        · have hne : spec.name ≠ n := by
            intro he
            rw [he] at hln
            rw [hln] at hl
            cases hl
          rw [if_neg hne]
          have := ih _ _ h n (by rw [hmap]; exact hl)
          rw [this, hregd]
        · by_cases hne : spec.name = n
          · rw [if_pos hne]
            subst hne
            have hentry : st2.helpMap.lookup spec.name = some spec.help := by
              rw [hmap]
              rw [lookup_append, hl]
              simp [List.lookup]
            exact buildMetrics_helpMap_mono rest _ _ h spec.name spec.help hentry
          · rw [if_neg hne]
            have hl2 : st2.helpMap.lookup n = none := by
              rw [hmap]
              refine lookup_append_none _ _ _ hl ?_
              have hbeq : (n == spec.name) = false :=
                beq_eq_false_iff_ne.mpr (fun he => hne he.symm)
              simp [List.lookup, hbeq]
            have := ih _ _ h n hl2
            rw [this, hregd]
    | regErrStep msg st2 => rw [hstep] at h; cases h
    | badTypeStep st2 => rw [hstep] at h; cases h

end Sql2Metrics

namespace Sql2Metrics

/-- All descriptors sharing a name agree on the help text: what the scrape
endpoint requires to expose one help per metric name. -/
def RegAgrees (reg : List Desc) : Prop :=
  ∀ d1 ∈ reg, ∀ d2 ∈ reg, d1.name = d2.name → d1.help = d2.help

theorem regAgrees_of_subset (reg reg' : List Desc)
    (hsub : ∀ d ∈ reg', d ∈ reg) (h : RegAgrees reg) : RegAgrees reg' :=
  fun d1 h1 d2 h2 hn => h d1 (hsub d1 h1) d2 (hsub d2 h2) hn

theorem registerDesc_ok_agrees (reg : List Desc) (d : Desc) (reg' : List Desc)
    (h : registerDesc reg d = .ok reg') (hagr : RegAgrees reg) : RegAgrees reg' := by
  have he := registerDesc_ok_eq _ _ _ h
  subst he
  unfold registerDesc at h
  split at h
  · cases h
  · rename_i hany
    have hnc : ∀ e ∈ reg, e.name = d.name → e.help = d.help := by
      intro e he hn
      by_contra hne
      exact hany (List.any_eq_true.mpr ⟨e, he, by simp [hn, hne]⟩)
    intro d1 h1 d2 h2 hn
    rcases List.mem_append.mp h1 with h1' | h1' <;>
      rcases List.mem_append.mp h2 with h2' | h2'
    · exact hagr d1 h1' d2 h2' hn
    · rcases List.mem_singleton.mp h2' with rfl
      exact hnc d1 h1' hn
    · rcases List.mem_singleton.mp h1' with rfl
      exact (hnc d2 h2' hn.symm).symm
    · rcases List.mem_singleton.mp h1' with rfl
      rcases List.mem_singleton.mp h2' with rfl
      rfl

theorem unregisterDesc_subset (reg : List Desc) (d : Desc) :
    ∀ e ∈ unregisterDesc reg d, e ∈ reg := by
  intro e he
  exact (List.mem_filter.mp he).1

theorem unregisterAll_subset (hs : List MetricHolder) :
    ∀ (reg : List Desc) (e : Desc), e ∈ unregisterAll reg hs → e ∈ reg := by
  induction hs with
  | nil => intro reg e he; exact he
  | cons h0 rest ih =>
    intro reg e he
    have : e ∈ unregisterDesc reg h0.desc := ih (unregisterDesc reg h0.desc) e he
    exact unregisterDesc_subset _ _ _ this

theorem unregisterRemoved_subset (names : List String) :
    ∀ (hs : List MetricHolder) (reg reg' : List Desc),
      unregisterRemoved reg names hs = some reg' → ∀ e ∈ reg', e ∈ reg := by
  intro hs
  induction hs with
  | nil =>
    intro reg reg' h e he
    cases h
    exact he
  | cons h0 rest ih =>
    intro reg reg' h e he
    rw [unregisterRemoved] at h
    split at h
    · exact ih reg reg' h e he
    · cases hg : h0.gauge with
      | none => rw [hg] at h; cases h
      | some g0 =>
        rw [hg] at h
        exact unregisterDesc_subset _ _ _ (ih _ _ h e he)

theorem buildStep_proceed_agrees (st : BuildSt) (spec : MetricSpec) (st2 : BuildSt)
    (h : buildStep st spec = .proceed st2) (hagr : RegAgrees st.registry) :
    RegAgrees st2.registry := by
  unfold buildStep at h
  split at h
  · cases h; exact hagr
  · cases hmk : mkCollector (stabilizeHelpSpec (markKey st spec) spec) with
    | none => simp only [hmk] at h; cases h
    | some dg =>
      obtain ⟨d, g⟩ := dg
      simp only [hmk] at h
      cases hreg : registerDesc (stabilizeHelpSt (markKey st spec) spec).registry d with
      | error msg' => simp only [hreg] at h; cases h
      | ok reg =>
        simp only [hreg] at h
        cases h
        refine registerDesc_ok_agrees _ d _ hreg ?_
        simpa using hagr

theorem buildMetrics_ok_agrees (specs : List MetricSpec) :
    ∀ st bst, buildMetrics st specs = .ok bst →
      RegAgrees st.registry → RegAgrees bst.registry := by
  induction specs with
  | nil => intro st bst h hagr; cases h; exact hagr
  | cons spec rest ih =>
    intro st bst h hagr
    rw [buildMetrics] at h
    cases hstep : buildStep st spec with
    | proceed st2 =>
      rw [hstep] at h
      exact ih _ _ h (buildStep_proceed_agrees st spec st2 hstep hagr)
    | regErrStep msg st2 => rw [hstep] at h; cases h
    | badTypeStep st2 => rw [hstep] at h; cases h

theorem buildMetrics_regErr_agrees (specs : List MetricSpec) :
    ∀ st msg bst, buildMetrics st specs = .regErr msg bst →
      RegAgrees st.registry → RegAgrees bst.registry := by
  induction specs with
  | nil => intro st msg bst h hagr; cases h
  | cons spec rest ih =>
    intro st msg bst h hagr
    rw [buildMetrics] at h
    cases hstep : buildStep st spec with
    | proceed st2 =>
      rw [hstep] at h
      exact ih _ _ _ h (buildStep_proceed_agrees st spec st2 hstep hagr)
    | regErrStep msg' st2 =>
      rw [hstep] at h
      cases h
      rcases buildStep_regErr_inv st spec _ _ hstep with ⟨hr, _, _⟩
      rw [hr]
      exact hagr
    | badTypeStep st2 => rw [hstep] at h; cases h

theorem collectAfter_spec_eq (env : Env) (s : ServiceState) (h : MetricHolder) :
    (collectAfter env s h).spec = h.spec := by
  unfold collectAfter
  split <;> rfl

theorem gaugeAfterQuery_spec_eq (env : Env) (s : ServiceState) (h : MetricHolder) :
    (gaugeAfterQuery env s h).spec = h.spec := by
  unfold gaugeAfterQuery
  split <;> rfl

theorem executeRound_some_map (env : Env) (s : ServiceState) :
    ∀ hs0 hs errs succ, executeRound env s hs0 = some (hs, errs, succ) →
      hs = hs0.map (gaugeAfterQuery env s) := by
  intro hs0
  induction hs0 with
  | nil =>
    intro hs errs succ h
    simp [executeRound] at h
    obtain ⟨h1, -, -⟩ := h
    subst h1
    rfl
  | cons h0 rest ih =>
    intro hs errs succ h
    cases hq : queryMetric env s h0.spec with
    | none =>
      rw [executeRound, hq] at h
      cases hgv : h0.gauge with
      | none => rw [hgv] at h; cases h
      | some g0 =>
        rw [hgv] at h
        cases hr : executeRound env s rest with
        | none => rw [hr] at h; cases h
        | some t =>
          obtain ⟨tl, terrs, tsucc⟩ := t
          rw [hr] at h
          cases h
          simp [gaugeAfterQuery, hq, ih _ _ _ hr]
    | some v =>
      rw [executeRound, hq] at h
      cases hgv : h0.gauge with
      | none => rw [hgv] at h; cases h
      | some g0 =>
        rw [hgv] at h
        cases hr : executeRound env s rest with
        | none => rw [hr] at h; cases h
        | some t =>
          obtain ⟨tl, terrs, tsucc⟩ := t
          rw [hr] at h
          cases h
          simp [gaugeAfterQuery, hq, ih _ _ _ hr]

theorem execute_inv (env : Env) (s s' : ServiceState) (h : execute env s = some s') :
    s'.metrics = s.metrics.map (gaugeAfterQuery env s) ∧
    s'.cfg = s.cfg ∧ s'.registry = s.registry := by
  unfold execute at h
  cases hr : executeRound env s s.metrics with
  | none => rw [hr] at h; cases h
  | some t =>
    obtain ⟨hs, errs, succ⟩ := t
    rw [hr] at h
    cases h
    exact ⟨executeRound_some_map env s s.metrics hs errs succ hr, rfl, rfl⟩

theorem newService_inv (env : Env) (cfg : Config) (s : ServiceState)
    (h : newService env cfg = some s) :
    ∃ bst r1 r2, buildMetrics ⟨[], [], [], [], []⟩ cfg.metrics = .ok bst ∧
      registerDesc bst.registry errorCountDesc = .ok r1 ∧
      registerDesc r1 lastRunDesc = .ok r2 ∧
      s.metrics = bst.holders ∧ s.registry = r2 ∧ s.cfg = cfg := by
  simp only [newService] at h
  cases hb : buildMetrics ⟨[], [], [], [], []⟩ cfg.metrics with
  | badType bst => simp only [hb] at h; cases h
  | regErr m bst => simp only [hb] at h; cases h
  | ok bst =>
    simp only [hb] at h
    cases h1 : registerDesc bst.registry errorCountDesc with
    | error m => simp only [h1] at h; cases h
    | ok r1 =>
      simp only [h1] at h
      cases h2 : registerDesc r1 lastRunDesc with
      | error m => simp only [h2] at h; cases h
      | ok r2 =>
        simp only [h2] at h
        cases h
        exact ⟨bst, r1, r2, rfl, h1, h2, rfl, rfl, rfl⟩

theorem reloadConfig_cases (env : Env) (s : ServiceState) (newCfg : Config)
    (s' : ServiceState) (res : ReloadResult)
    (h : reloadConfig env s newCfg = some (s', res)) :
    (∃ reg1 e, unregisterRemoved s.registry (newCfg.metrics.map (fun m => m.name))
        s.metrics = some reg1 ∧
      s' = reloadClientErrState env s newCfg reg1 ∧ res = ReloadResult.failWith e) ∨
    (∃ reg1 msg bst, unregisterRemoved s.registry (newCfg.metrics.map (fun m => m.name))
        s.metrics = some reg1 ∧
      buildMetrics ⟨[], [], [], unregisterAll reg1 s.metrics, []⟩ newCfg.metrics =
        .regErr msg bst ∧
      s' = reloadRegErrState env s newCfg bst ∧ res = ReloadResult.failWith msg) ∨
    (∃ reg1 bst hs2, unregisterRemoved s.registry (newCfg.metrics.map (fun m => m.name))
        s.metrics = some reg1 ∧
      buildMetrics ⟨[], [], [], unregisterAll reg1 s.metrics, []⟩ newCfg.metrics =
        .ok bst ∧
      reloadCollect env (reloadSuccessState env s newCfg bst) bst.holders = some hs2 ∧
      s' = { reloadSuccessState env s newCfg bst with metrics := hs2 } ∧
      res = { success := true, error := "", message := "hot reload succeeded",
              metrics := bst.newNames, removed := removedNames s.metrics newCfg }) := by
  simp only [reloadConfig] at h
  cases h1 : unregisterRemoved s.registry (newCfg.metrics.map (fun m => m.name)) s.metrics with
  | none => simp only [h1] at h; cases h
  | some reg1 =>
    simp only [h1] at h
    cases h2 : (reloadClients env s.cfg newCfg s.mysql s.redis s.restapi s.iotdb).2.2.2.2 with
    | some e =>
      simp only [h2] at h
      cases h
      exact Or.inl ⟨reg1, e, rfl, rfl, rfl⟩
    | none =>
      simp only [h2] at h
      cases h3 : buildMetrics ⟨[], [], [], unregisterAll reg1 s.metrics, []⟩ newCfg.metrics with
      | badType bst => simp only [h3] at h; cases h
      | regErr msg bst =>
        simp only [h3] at h
        cases h
        exact Or.inr (Or.inl ⟨reg1, msg, bst, rfl, h3, rfl, rfl⟩)
      | ok bst =>
        simp only [h3] at h
        cases h4 : reloadCollect env (reloadSuccessState env s newCfg bst) bst.holders with
        | none =>
          rw [show reloadCollect env (reloadSuccessState env s newCfg bst) bst.holders =
            reloadCollect env { s with
              cfg := newCfg,
              mysql := (reloadClients env s.cfg newCfg s.mysql s.redis s.restapi s.iotdb).1,
              redis := (reloadClients env s.cfg newCfg s.mysql s.redis s.restapi s.iotdb).2.1,
              restapi := (reloadClients env s.cfg newCfg s.mysql s.redis s.restapi s.iotdb).2.2.1,
              iotdb := (reloadClients env s.cfg newCfg s.mysql s.redis s.restapi s.iotdb).2.2.2.1,
              registry := bst.registry, metrics := bst.holders } bst.holders from rfl] at h4
          simp only [h4] at h
          cases h
        | some hs2 =>
          rw [show reloadCollect env (reloadSuccessState env s newCfg bst) bst.holders =
            reloadCollect env { s with
              cfg := newCfg,
              mysql := (reloadClients env s.cfg newCfg s.mysql s.redis s.restapi s.iotdb).1,
              redis := (reloadClients env s.cfg newCfg s.mysql s.redis s.restapi s.iotdb).2.1,
              restapi := (reloadClients env s.cfg newCfg s.mysql s.redis s.restapi s.iotdb).2.2.1,
              iotdb := (reloadClients env s.cfg newCfg s.mysql s.redis s.restapi s.iotdb).2.2.2.1,
              registry := bst.registry, metrics := bst.holders } bst.holders from rfl] at h4
          simp only [h4] at h
          cases h
          exact Or.inr (Or.inr ⟨reg1, bst, hs2, rfl, h3, h4, rfl, rfl⟩)

end Sql2Metrics

namespace Sql2Metrics

theorem reachable_help_inv : ∀ s, Reachable s →
    (∀ h0 ∈ s.metrics, firstSeenHelp s.cfg.metrics [] h0.spec.name = some h0.spec.help) ∧
    RegAgrees s.registry := by
  intro s hreach
  induction hreach with
  | init env cfg t hnew =>
    rcases newService_inv env cfg t hnew with ⟨bst, r1, r2, hb, h1, h2, hm, hr, hc⟩
    constructor
    · intro h0 hm0
      rw [hm] at hm0
      rw [hc]
      have hB := buildMetrics_holders_helpMap cfg.metrics _ _ hb
        (by intro x hx; cases hx) h0 hm0
      have hC := buildMetrics_helpMap_firstSeen cfg.metrics _ _ hb h0.spec.name rfl
      rw [hC] at hB
      exact hB
    · rw [hr]
      have ha0 : RegAgrees ([] : List Desc) := by
        intro d1 h1' d2 h2' _
        cases h1'
      have ha1 := buildMetrics_ok_agrees cfg.metrics _ _ hb ha0
      have ha2 := registerDesc_ok_agrees _ _ _ h1 ha1
      exact registerDesc_ok_agrees _ _ _ h2 ha2
  | reload env t s' newCfg res hre hrel ih =>
    rcases reloadConfig_cases env t newCfg s' res hrel with
      ⟨reg1, e, h1, hs', hres⟩ | ⟨reg1, msg, bst, h1, h3, hs', hres⟩ |
      ⟨reg1, bst, hs2, h1, h3, h4, hs', hres⟩
    · subst hs'
      constructor
      · intro h0 hm0
        exact ih.1 h0 hm0
      · have hsub := unregisterRemoved_subset _ _ _ _ h1
        exact regAgrees_of_subset _ _ hsub ih.2
    · subst hs'
      constructor
      · intro h0 hm0
        have hnil : (reloadRegErrState env t newCfg bst).metrics = [] := rfl
        rw [hnil] at hm0
        cases hm0
      · have hsub := unregisterRemoved_subset _ _ _ _ h1
        have ha1 := regAgrees_of_subset _ _ hsub ih.2
        have ha2 := regAgrees_of_subset _ _
          (fun d hd => unregisterAll_subset t.metrics reg1 d hd) ha1
        exact buildMetrics_regErr_agrees newCfg.metrics _ _ _ h3 ha2
    · subst hs'
      have hmap := reloadCollect_some env _ _ _ h4
      subst hmap
      constructor
      · intro h0 hm0
        have hmm : h0 ∈ List.map (collectAfter env (reloadSuccessState env t newCfg bst))
            bst.holders := hm0
        rcases List.mem_map.mp hmm with ⟨h00, hh00, rfl⟩
        have hB := buildMetrics_holders_helpMap newCfg.metrics _ _ h3
          (by intro x hx; cases hx) h00 hh00
        have hC := buildMetrics_helpMap_firstSeen newCfg.metrics _ _ h3 h00.spec.name rfl
        rw [hC] at hB
        show firstSeenHelp newCfg.metrics []
            (collectAfter env (reloadSuccessState env t newCfg bst) h00).spec.name =
          some (collectAfter env (reloadSuccessState env t newCfg bst) h00).spec.help
        rw [collectAfter_spec_eq]
        exact hB
      · have hsub := unregisterRemoved_subset _ _ _ _ h1
        have ha1 := regAgrees_of_subset _ _ hsub ih.2
        have ha2 := regAgrees_of_subset _ _
          (fun d hd => unregisterAll_subset t.metrics reg1 d hd) ha1
        exact buildMetrics_ok_agrees newCfg.metrics _ _ h3 ha2
  | collect env t s' hre hexec ih =>
    rcases execute_inv env t s' hexec with ⟨hm, hc, hr⟩
    constructor
    · intro h0 hm0
      rw [hm] at hm0
      rcases List.mem_map.mp hm0 with ⟨h1, hh1, rfl⟩
      rw [hc, gaugeAfterQuery_spec_eq]
      exact ih.1 h1 hh1
    · rw [hr]
      exact ih.2

/-- C6: in every state reachable through `NewService`, `ReloadConfig` and
collection rounds, any two live instrument handles with the same spec name
carry equal help strings, equal to the first-seen help for that name (the
help of the first non-skipped spec with that name in the live
configuration) — and every pair of registered descriptors sharing a name
agrees on help, so the scrape exposes a single help text per metric
name. -/
theorem c6_help_stability (s : ServiceState) (hreach : Reachable s) :
    (∀ h1 ∈ s.metrics, firstSeenHelp s.cfg.metrics [] h1.spec.name = some h1.spec.help) ∧
    (∀ h1 ∈ s.metrics, ∀ h2 ∈ s.metrics, h1.spec.name = h2.spec.name →
      h1.spec.help = h2.spec.help) ∧
    (∀ d1 ∈ s.registry, ∀ d2 ∈ s.registry, d1.name = d2.name → d1.help = d2.help) := by
  rcases reachable_help_inv s hreach with ⟨hfs, hreg⟩
  refine ⟨hfs, ?_, hreg⟩
  intro h1 hm1 h2 hm2 hn
  have e1 := hfs h1 hm1
  have e2 := hfs h2 hm2
  rw [hn] at e1
  rw [e1] at e2
  exact Option.some.inj e2

/-- A fallback state for `Option.getD`. -/
def exDefaultState : ServiceState :=
  { cfg := exCfgC5, mysql := [], redis := [], restapi := [], iotdb := none,
    metrics := [], registry := [], errorCount := 0, lastRun := none }

/-- A concrete state built by `newService`, used to witness C6. -/
def exStateC6 : ServiceState :=
  (newService exEnvC5 exCfgC5).getD exDefaultState

/-- Witness for C6 at a concrete reachable state. -/
theorem c6_help_stability_witness :
    (∀ h1 ∈ exStateC6.metrics,
      firstSeenHelp exStateC6.cfg.metrics [] h1.spec.name = some h1.spec.help) ∧
    (∀ h1 ∈ exStateC6.metrics, ∀ h2 ∈ exStateC6.metrics,
      h1.spec.name = h2.spec.name → h1.spec.help = h2.spec.help) ∧
    (∀ d1 ∈ exStateC6.registry, ∀ d2 ∈ exStateC6.registry,
      d1.name = d2.name → d1.help = d2.help) :=
  c6_help_stability exStateC6 (Reachable.init exEnvC5 exCfgC5 exStateC6 rfl)

end Sql2Metrics
